import Mathlib

/-!
PrivatePensionSystem: a shallow embedding of the front-end handlers.

The repository is a React single-page application.  The handlers of
`src/frontend/src/App.js`, `src/frontend/src/pages/*.js`,
`src/frontend/src/contexts/PensionContext.js` and the shim
`src/ethers-fallback.js` are embedded as pure functions: every handler takes the
state captured by its closure (the values of the render in which it was created)
together with the behaviour of the external objects it talks to (wallet
provider, contract-like object, library) and returns the state after all its
setter calls, the ordered list of observable events (contract calls, provider
requests, alerts, toasts, console output) and the value it threw, if any.
-/

namespace PrivatePension

/-! ## JavaScript numbers -/

/-- A JavaScript Number (IEEE-754 binary64).  A finite value is `m / 2 ^ e`,
kept in lowest terms (`m` odd or `e = 0`), so that equal numbers are equal
terms.  The two zeros are identified: nothing in the embedded code tells them
apart (no division, no `Object.is`, and both print as `0`). -/
inductive Num
  | nan
  | inf (neg : Bool)
  | fin (m : Int) (e : Nat)
  deriving DecidableEq, Repr

namespace Num

/-- The integer `k` as a Number (exact for the small literals of the source). -/
def ofInt (k : Int) : Num := .fin k 0

/-- Lowest terms of `m / 2 ^ e`. -/
def mkFin (m : Int) : Nat → Num
  | 0 => .fin m 0
  | e + 1 => if m % 2 = 0 then mkFin (m / 2) e else .fin m (e + 1)

/-- Number of binary digits of `n` (the first argument bounds the recursion). -/
def bitLength : Nat → Nat → Nat
  | 0, _ => 0
  | fuel + 1, n => if n = 0 then 0 else bitLength fuel (n / 2) + 1

/-- Nearest integer to `n / d`, ties to even. -/
def roundHalfEven (n d : Nat) : Nat :=
  let q := n / d
  let r := n % d
  if 2 * r < d then q
  else if d < 2 * r then q + 1
  else if q % 2 = 0 then q else q + 1

/-- The Number nearest to the real `± n / d` (round to nearest, ties to even,
53 significant bits, gradual underflow below `2 ^ -1022`, overflow to
`Infinity`): the conversion the language applies to every mathematical value
before it becomes a Number. -/
def ofRatio (neg : Bool) (n d : Nat) : Num :=
  if n = 0 then .fin 0 0 else
  let k0 : Int := (bitLength n n : Int) - (bitLength d d : Int)
  let k : Int :=
    if (if 0 ≤ k0 then 2 ^ k0.toNat * d ≤ n else d ≤ n * 2 ^ (-k0).toNat) then k0 else k0 - 1
  let p : Int := max (k - 52) (-1074)
  let sgn : Int := if neg then -1 else 1
  if 0 ≤ p then
    let v := roundHalfEven n (d * 2 ^ p.toNat) * 2 ^ p.toNat
    if 1024 < bitLength v v then .inf neg else .fin (sgn * v) 0
  else
    mkFin (sgn * roundHalfEven (n * 2 ^ (-p).toNat) d) (-p).toNat

/-- The Number of a BigInt, as `Number(b)` computes it. -/
def ofBigInt (k : Int) : Num := ofRatio (decide (k < 0)) k.natAbs 1

/-- The operator `a < b` on Numbers (false as soon as one side is `NaN`). -/
def lt : Num → Num → Bool
  | .nan, _ => false
  | _, .nan => false
  | .inf true, .inf true => false
  | .inf true, _ => true
  | _, .inf true => false
  | .inf false, _ => false
  | _, .inf false => true
  | .fin a ea, .fin b eb => decide (a * 2 ^ eb < b * 2 ^ ea)

/-- The operator `a > b`. -/
def gt (a b : Num) : Bool := lt b a

/-- The operator `a <= b` (false as soon as one side is `NaN`). -/
def le : Num → Num → Bool
  | .nan, _ => false
  | _, .nan => false
  | a, b => !(lt b a)

/-- The operator `a >= b`. -/
def ge (a b : Num) : Bool := le b a

/-- The function `Math.floor`. -/
def floor : Num → Num
  | .nan => .nan
  | .inf s => .inf s
  | .fin m e => .fin (Int.fdiv m (2 ^ e)) 0

/-- The operator `a - b` on Numbers: the exact difference, rounded. -/
def sub : Num → Num → Num
  | .nan, _ => .nan
  | _, .nan => .nan
  | .inf a, .inf b => if a = b then .nan else .inf a
  | .inf a, .fin _ _ => .inf a
  | .fin _ _, .inf b => .inf (!b)
  | .fin a ea, .fin b eb =>
    let n : Int := a * 2 ^ eb - b * 2 ^ ea
    ofRatio (decide (n < 0)) n.natAbs (2 ^ (ea + eb))

/-- The function `Math.max` on two Numbers (`NaN` as soon as one is). -/
def max : Num → Num → Num
  | .nan, _ => .nan
  | _, .nan => .nan
  | a, b => if lt a b then b else a

/-- Truthiness of a Number: `0` and `NaN` are falsy. -/
def truthy : Num → Bool
  | .nan => false
  | .inf _ => true
  | .fin m _ => decide (m ≠ 0)

end Num

/-! ## Parsing strings to numbers: `parseInt` and `parseFloat` -/

/-- White space and line terminators that `parseInt` and `parseFloat` skip at
the start of their argument. -/
def isStrWhiteSpace (c : Char) : Bool :=
  let n := c.toNat
  n = 9 || n = 10 || n = 11 || n = 12 || n = 13 || n = 32 || n = 160 || n = 5760 ||
  (8192 ≤ n && n ≤ 8202) || n = 8232 || n = 8233 || n = 8239 || n = 8287 ||
  n = 12288 || n = 65279

/-- Drop leading white space. -/
def trimStart : List Char → List Char
  | [] => []
  | c :: cs => if isStrWhiteSpace c then trimStart cs else c :: cs

/-- Value of a character as a digit in radix 10 or 16, if it is one. -/
def digitValue (radix : Nat) (c : Char) : Option Nat :=
  let n := c.toNat
  if 48 ≤ n ∧ n ≤ 57 then some (n - 48)
  else if radix = 16 ∧ 97 ≤ n ∧ n ≤ 102 then some (n - 87)
  else if radix = 16 ∧ 65 ≤ n ∧ n ≤ 70 then some (n - 55)
  else none

/-- Longest prefix of digits of the radix: its digit values, and the rest. -/
def spanDigits (radix : Nat) : List Char → List Nat × List Char
  | [] => ([], [])
  | c :: cs =>
    match digitValue radix c with
    | some v => let r := spanDigits radix cs; (v :: r.1, r.2)
    | none => ([], c :: cs)

/-- The mathematical value of a digit sequence. -/
def digitsValue (radix : Nat) (ds : List Nat) : Nat :=
  ds.foldl (fun acc v => acc * radix + v) 0

/-- An optional sign: whether it is `-`, and the rest. -/
def takeSign : List Char → Bool × List Char
  | '-' :: cs => (true, cs)
  | '+' :: cs => (false, cs)
  | cs => (false, cs)

/-- The global function `parseInt(string)` with no radix argument. -/
def parseInt (s : String) : Num :=
  let t := takeSign (trimStart s.data)
  let body : Nat × List Char :=
    match t.2 with
    | '0' :: 'x' :: cs => (16, cs)
    | '0' :: 'X' :: cs => (16, cs)
    | cs => (10, cs)
  let ds := (spanDigits body.1 body.2).1
  if ds = [] then .nan else Num.ofRatio t.1 (digitsValue body.1 ds) 1

/-- The exponent part of a decimal literal, read only when it is complete
(`e` or `E`, an optional sign, at least one digit); otherwise `0`. -/
def exponentPart : List Char → Int
  | c :: cs =>
    if c = 'e' ∨ c = 'E' then
      let t := takeSign cs
      let ds := (spanDigits 10 t.2).1
      if ds = [] then 0
      else if t.1 then -(digitsValue 10 ds : Int) else (digitsValue 10 ds : Int)
    else 0
  | [] => 0

/-- The global function `parseFloat(string)`: the longest prefix of the trimmed
string that is a decimal literal, rounded to a Number; `NaN` when there is
none. -/
def parseFloat (s : String) : Num :=
  let t := takeSign (trimStart s.data)
  match t.2 with
  | 'I' :: 'n' :: 'f' :: 'i' :: 'n' :: 'i' :: 't' :: 'y' :: _ => .inf t.1
  | cs =>
    let ip := spanDigits 10 cs
    let fp : List Nat × List Char :=
      match ip.2 with
      | '.' :: r => spanDigits 10 r
      | r => ([], r)
    if ip.1 = [] ∧ fp.1 = [] then .nan
    else
      let mant := digitsValue 10 (ip.1 ++ fp.1)
      let scale : Int := exponentPart fp.2 - (fp.1.length : Int)
      if 0 ≤ scale then Num.ofRatio t.1 (mant * 10 ^ scale.toNat) 1
      else Num.ofRatio t.1 mant (10 ^ (-scale).toNat)

/-! ## JavaScript values -/

/-- The JavaScript values the embedded code exchanges with its environment:
primitives, byte buffers (`Uint8Array`), arrays and plain objects (a list of
own properties).  A function value is not represented; where the source reads
`code` or `message` of a caught value, a function behaves as an object without
these properties. -/
inductive JSVal
  | undefined
  | null
  | bool (b : Bool)
  | num (x : Num)
  | bigint (n : Int)
  | str (s : String)
  | bytes (data : List Nat)
  | arr (items : List JSVal)
  | obj (props : List (String × JSVal))

namespace JSVal

/-- A `TypeError` raised by the language itself. -/
def typeError (msg : String) : JSVal :=
  .obj [("name", .str "TypeError"), ("message", .str msg)]

/-- The object `new Error(msg)`. -/
def error (msg : String) : JSVal :=
  .obj [("name", .str "Error"), ("message", .str msg)]

/-- Reading `v.key` for a property name that no built-in prototype defines
(`code`, `message`): a `TypeError` on `undefined` and `null`, the own property
of an object, `undefined` otherwise. -/
def getProp (v : JSVal) (key : String) : Except JSVal JSVal :=
  match v with
  | .undefined => .error (typeError ("Cannot read properties of undefined (reading " ++ key ++ ")"))
  | .null => .error (typeError ("Cannot read properties of null (reading " ++ key ++ ")"))
  | .obj props => .ok ((props.lookup key).getD .undefined)
  | _ => .ok .undefined

/-- Reading `v[0]`. -/
def first (v : JSVal) : Except JSVal JSVal :=
  match v with
  | .undefined => .error (typeError "Cannot read properties of undefined (reading 0)")
  | .null => .error (typeError "Cannot read properties of null (reading 0)")
  | .arr items => .ok (items.head?.getD .undefined)
  | .bytes data => .ok ((data.head?.map fun b => JSVal.num (Num.ofInt b)).getD .undefined)
  | .str s => .ok ((s.data.head?.map fun c => JSVal.str (String.singleton c)).getD .undefined)
  | .obj props => .ok ((props.lookup "0").getD .undefined)
  | _ => .ok .undefined

/-- Truthiness of a value. -/
def truthy : JSVal → Bool
  | .undefined => false
  | .null => false
  | .bool b => b
  | .num x => x.truthy
  | .bigint n => decide (n ≠ 0)
  | .str s => decide (s ≠ "")
  | _ => true

/-- The comparison `v === s` against a string literal. -/
def isStr (v : JSVal) (s : String) : Bool :=
  match v with
  | .str t => decide (t = s)
  | _ => false

/-- The comparison `v === n` against a Number literal other than `NaN`. -/
def isNum (v : JSVal) (n : Num) : Bool :=
  match v with
  | .num x => decide (x = n)
  | _ => false

mutual

/-- Whether React accepts the value as a child of an element.  A string or a
Number becomes text; `undefined`, `null`, a boolean and a BigInt render
nothing; an array is rendered element by element and a byte buffer is iterated
as its Numbers; a plain object makes the render throw. -/
def renderable : JSVal → Bool
  | .obj _ => false
  | .arr items => renderableAll items
  | _ => true

/-- Whether React accepts every value of the list as a child. -/
def renderableAll : List JSVal → Bool
  | [] => true
  | v :: vs => v.renderable && renderableAll vs

end

end JSVal

/-- Whether `pat` occurs in `s` at its start. -/
def startsWith : List Char → List Char → Bool
  | [], _ => true
  | _ :: _, [] => false
  | p :: ps, c :: cs => decide (p = c) && startsWith ps cs

/-- Whether `pat` occurs somewhere in `s`: `String.prototype.includes`. -/
def includesChars (pat : List Char) : List Char → Bool
  | [] => startsWith pat []
  | c :: cs => startsWith pat (c :: cs) || includesChars pat cs

/-- The call `x.includes(pat)` on a value `x`, for a string `pat`.  A string
searches for `pat` as a substring (`String.prototype.includes`); an array
searches for an element that is the string `pat` (`Array.prototype.includes`);
a byte buffer holds Numbers only, none of which is a string; every other value
has no method `includes`, so the call raises a `TypeError`. -/
def includes (x : JSVal) (pat : String) : Except JSVal Bool :=
  match x with
  | .str s => .ok (includesChars pat.data s.data)
  | .arr items => .ok (items.any fun v => v.isStr pat)
  | .bytes _ => .ok false
  | .undefined => .error (JSVal.typeError "Cannot read properties of undefined (reading includes)")
  | .null => .error (JSVal.typeError "Cannot read properties of null (reading includes)")
  | _ => .error (JSVal.typeError "includes is not a function")

/-- A string produced by the source: a literal, or a template literal with one
Number placeholder (kept symbolic: the text is `pre`, the Number printed by the
language, `post`). -/
inductive Text
  | lit (s : String)
  | tmpl (pre : String) (x : Num) (post : String)
  deriving DecidableEq

/-! ## The external objects: wallet provider, contract, library -/

/-- A numeric element of the tuple `getAccountInfo` returns: a Number (the
fallback shim) or a BigInt (the real library, for `uint256`). -/
inductive Numeric
  | number (x : Num)
  | bigint (n : Int)
  deriving DecidableEq

/-- The conversion `Number(v)` of a numeric value. -/
def Numeric.toNumber : Numeric → Num
  | .number x => x
  | .bigint n => Num.ofBigInt n

/-- The value `info` that `getAccountInfo` resolves to: the tuple
`(uint256, uint256, bool, uint256)` of the contract ABI. -/
structure AccountTuple where
  v0 : Numeric
  v1 : Numeric
  v2 : Bool
  v3 : Numeric
  deriving DecidableEq

/-- A transaction object: `wait` is the outcome of `await tx.wait()`. -/
structure Tx where
  wait : Except JSVal JSVal

/-- A method of a contract-like object: the outcome of awaiting a call with the
given arguments (resolved value, or the value it rejects with). -/
abbrev Method (α : Type) := List JSVal → Except JSVal α

/-- A contract-like object.  A member that the object does not define is
`none`; calling it raises a `TypeError`.  The pages await every method but
`once`, whose outcome is that of the call itself (its callback argument is not
represented). -/
structure Contract where
  createPensionAccount : Option (Method Tx)
  makeContribution : Option (Method Tx)
  selectInvestmentOption : Option (Method Tx)
  calculateReturns : Option (Method Tx)
  initiateRetirement : Option (Method Tx)
  withdraw : Option (Method Tx)
  getAccountInfo : Option (Method AccountTuple)
  once : Option (Method Unit)

/-- The injected wallet provider `window.ethereum`: the outcome of awaiting
`request` with a method name and optional params. -/
structure Provider where
  request : String → Option JSVal → Except JSVal JSVal

/-- The imported library `ethers`, as far as the pages use it. -/
structure Ethers where
  /-- The steps `new ethers.BrowserProvider(p)` and `await provider.getSigner()`. -/
  getSigner : Provider → Except JSVal JSVal
  /-- The step `new ethers.Contract(address, abi, signer)`. -/
  newContract : String → List String → JSVal → Except JSVal Contract
  /-- The call `ethers.parseEther(s)`. -/
  parseEther : String → Except JSVal JSVal

/-- What a handler does that can be observed from outside, in order. -/
inductive Event
  | alert (msg : String)
  | consoleError (label : String) (err : JSVal)
  | request (method : String) (params : Option JSVal)
  | getSigner
  | newContract (address : String)
  | call (method : String) (args : List JSVal)
  | wait (method : String)
  | action (name : String) (args : List JSVal)
  | write (functionName : String) (args : List JSVal)
  | toastError (msg : String)
  | toastSuccess (msg : String)
  | toastLoading (msg : String)
  | toastDismiss

/-- Whether an event is a call of a contract method. -/
def Event.isCall : Event → Bool
  | .call _ _ => true
  | _ => false

/-- Whether an event is a request to the wallet provider. -/
def Event.isRequest : Event → Bool
  | .request _ _ => true
  | _ => false

/-- Whether an event is a call of an action of the context. -/
def Event.isAction : Event → Bool
  | .action _ _ => true
  | _ => false

/-- Whether an event is a call of a `write` function of the context. -/
def Event.isWrite : Event → Bool
  | .write _ _ => true
  | _ => false

/-- Whether an event is a contract call or a wait on a transaction. -/
def Event.isCallOrWait : Event → Bool
  | .call _ _ => true
  | .wait _ => true
  | _ => false

/-- Whether an event is not a provider request with a method name outside
`allowed`. -/
def Event.requestsOnly (allowed : List String) : Event → Bool
  | .request m _ => allowed.contains m
  | _ => true

/-- Whether an event is an error toast. -/
def Event.isToastError : Event → Bool
  | .toastError _ => true
  | _ => false

/-- The call `await contract.name(...args)`: a `TypeError` when the object has
no such member, else one call event and the outcome of the method. -/
def invoke {α : Type} (m : Option (Method α)) (name : String) (args : List JSVal) :
    List Event × Except JSVal α :=
  match m with
  | none => ([], .error (JSVal.typeError ("contract." ++ name ++ " is not a function")))
  | some f => ([.call name args], f args)

/-! ## The fallback shim: `src/ethers-fallback.js` -/

namespace Fallback

/-- What the shim does that can be observed: console output and requests to
the provider handed to `BrowserProvider`. -/
inductive Effect
  | log (args : List JSVal)
  | request (method : String) (params : Option JSVal)

/-- Whether an effect is a request to the provider. -/
def Effect.isRequest : Effect → Bool
  | .request _ _ => true
  | .log _ => false

/-- A function of the shim: the effects of a call with the given arguments and
the outcome of awaiting it. -/
abbrev Fn (α : Type) := List JSVal → List Effect × Except JSVal α

/-- The transaction object of the mock: its only member is `wait`. -/
structure MockTx where
  wait : Fn JSVal

/-- The signer object `getSigner` resolves to. -/
structure Signer where
  address : JSVal
  sendTransaction : Fn JSVal

/-- The member `getSigner` of `new BrowserProvider(provider)`: one request
`eth_accounts`, then the signer built from the answer. -/
def getSigner (provider : Provider) : Fn Signer := fun _ =>
  match provider.request "eth_accounts" none with
  | .error e => ([.request "eth_accounts" none], .error e)
  | .ok accounts =>
    match accounts.first with
    | .error e => ([.request "eth_accounts" none], .error e)
    | .ok a =>
      ([.request "eth_accounts" none],
        .ok { address := a
              sendTransaction := fun args =>
                let tx := args.head?.getD .undefined
                ([.request "eth_sendTransaction" (some (.arr [tx]))],
                  provider.request "eth_sendTransaction" (some (.arr [tx]))) })

/-- The object literal `{ wait: async () => ({ status: 1 }) }`. -/
def mockTx : MockTx :=
  { wait := fun _ => ([], .ok (.obj [("status", .num (Num.ofInt 1))])) }

/-- A member of the object built by `new Contract(address, abi, signer)`. -/
inductive Member
  | value (v : JSVal)
  | signer (s : Signer)
  | write (f : Fn MockTx)
  | read (f : Fn AccountTuple)
  | listener (f : Fn Unit)

/-- The constructor `Contract(address, abi, signer)`: the members it assigns to
`this`, by name; a name it does not assign is `none`. -/
def Contract (address abi : JSVal) (signer : Signer) : String → Option Member
  | "address" => some (.value address)
  | "abi" => some (.value abi)
  | "signer" => some (.signer signer)
  | "createPensionAccount" =>
    some (.write fun _ => ([.log [.str "Mock: createPensionAccount called"]], .ok mockTx))
  | "makeContribution" =>
    some (.write fun _ => ([.log [.str "Mock: makeContribution called"]], .ok mockTx))
  | "withdraw" =>
    some (.write fun _ => ([.log [.str "Mock: withdraw called"]], .ok mockTx))
  | "initiateRetirement" =>
    some (.write fun _ => ([.log [.str "Mock: initiateRetirement called"]], .ok mockTx))
  | "calculateReturns" =>
    some (.write fun _ => ([.log [.str "Mock: calculateReturns called"]], .ok mockTx))
  | "getAccountInfo" =>
    some (.read fun _ =>
      ([], .ok ⟨.number (Num.ofInt 0), .number (Num.ofInt 0), false, .number (Num.ofInt 0)⟩))
  | "once" =>
    some (.listener fun args =>
      ([.log [.str "Mock event listener for:", args.head?.getD .undefined]], .ok ()))
  | _ => none

/-- A write member seen from a caller: its outcome without its console output,
`wait` included. -/
def asWrite : Option Member → Option (Method Tx)
  | some (.write f) => some fun args => (f args).2.map fun tx => { wait := (tx.wait []).2 }
  | _ => none

/-- A read member seen from a caller. -/
def asRead : Option Member → Option (Method AccountTuple)
  | some (.read f) => some fun args => (f args).2
  | _ => none

/-- A listener member seen from a caller. -/
def asListener : Option Member → Option (Method Unit)
  | some (.listener f) => some fun args => (f args).2
  | _ => none

/-- The mock object as the contract-like object a page calls. -/
def toContract (c : String → Option Member) : PrivatePension.Contract :=
  { createPensionAccount := asWrite (c "createPensionAccount")
    makeContribution := asWrite (c "makeContribution")
    selectInvestmentOption := asWrite (c "selectInvestmentOption")
    calculateReturns := asWrite (c "calculateReturns")
    initiateRetirement := asWrite (c "initiateRetirement")
    withdraw := asWrite (c "withdraw")
    getAccountInfo := asRead (c "getAccountInfo")
    once := asListener (c "once") }

/-- The five write methods the mock defines. -/
def writeMethods : List String :=
  ["createPensionAccount", "makeContribution", "withdraw", "initiateRetirement",
    "calculateReturns"]

end Fallback

/-- The method names the application expects from a contract-like object. -/
def expectedContractMethods : List String :=
  ["createPensionAccount", "makeContribution", "selectInvestmentOption", "calculateReturns",
    "initiateRetirement", "withdraw", "getAccountInfo"]

/-! ## The single-page application: `src/frontend/src/App.js` -/

/-- The result of running a handler: the component state after its setter
calls, what it did, and the value it threw (`none` when it completed). -/
structure Outcome (σ : Type) where
  state : σ
  trace : List Event
  threw : Option JSVal

/-- The snapshot `accountInfo` held by `App`. -/
structure AccountInfo where
  retirementAge : Num
  lastContribution : Num
  isRetired : Bool
  selectedInvestment : Num
  deriving DecidableEq

/-- An entry of the constant `strategies`. -/
structure Strategy where
  id : Num
  name : String
  risk : String
  apy : String
  icon : String

namespace App

/-- The constant `CONTRACT_ADDRESS`. -/
def CONTRACT_ADDRESS : String := "0xF71045bd12Ef5F0E0C30734dD6dCB75BB9b3aD78"

/-- The constant `CONTRACT_ABI`. -/
def CONTRACT_ABI : List String :=
  ["function createPensionAccount(uint256 _retirementAge) external",
   "function makeContribution(uint64 amount) external payable",
   "function selectInvestmentOption(uint256 optionId) external",
   "function calculateReturns() external",
   "function initiateRetirement() external",
   "function withdraw(uint64 amount) external payable",
   "function getAccountInfo() external view returns (uint256, uint256, bool, uint256)",
   "function getInvestmentOption(uint256 optionId) external view returns (string memory, uint256, bool)",
   "function getBalance() external view returns (uint64)",
   "function getContributions() external view returns (uint64)",
   "function getReturns() external view returns (uint64)",
   "event AccountCreated(address indexed user, uint256 retirementAge)",
   "event ContributionMade(address indexed user, bytes encryptedAmount)",
   "event InvestmentOptionSelected(address indexed user, uint256 optionId)",
   "event RetirementInitiated(address indexed user)",
   "event WithdrawalMade(address indexed user, bytes encryptedAmount)"]

/-- The constant `strategies`. -/
def strategies : List Strategy :=
  [⟨Num.ofInt 0, "Conservative", "Low Risk", "3-5%", "🛡️"⟩,
   ⟨Num.ofInt 1, "Balanced", "Moderate Risk", "6-8%", "⚖️"⟩,
   ⟨Num.ofInt 2, "Growth", "High Risk", "10-12%", "🚀"⟩]

/-- The state of the component `App` (its `useState` cells). -/
structure State where
  account : JSVal
  contract : Option Contract
  loading : Bool
  message : Text
  accountInfo : Option AccountInfo
  balance : String
  contributionAmount : String
  retirementAge : String
  selectedStrategy : Num

/-- The initial values of the `useState` cells. -/
def State.initial : State :=
  { account := .str ""
    contract := none
    loading := false
    message := .lit "Connect wallet to start managing your retirement!"
    accountInfo := none
    balance := "0.00"
    contributionAmount := ""
    retirementAge := ""
    selectedStrategy := Num.ofInt 0 }

/-- The function `loadAccountInfo(contractInstance)`.  `balance` stands for
the string `(Math.random() * 10000).toFixed(2)` drawn by this call. -/
def loadAccountInfo (balance : String) (contractInstance : Option Contract) (s : State) :
    State × List Event :=
  match contractInstance with
  | none => (s, [])
  | some c =>
    match invoke c.getAccountInfo "getAccountInfo" [] with
    | (t, .error e) => (s, t ++ [.consoleError "Failed to load account info:" e])
    | (t, .ok info) =>
      ({ s with
          accountInfo := some
            { retirementAge := info.v0.toNumber
              lastContribution := info.v1.toNumber
              isRetired := info.v2
              selectedInvestment := info.v3.toNumber }
          balance := balance }, t)

/-- The `catch` and `finally` blocks shared in shape by all handlers:
`console.error(label, error)`, `setMessage(msg)`, then `setLoading(false)`. -/
def failed (label msg : String) (s : State) (t : List Event) (e : JSVal) : Outcome State :=
  ⟨{ s with message := .lit msg, loading := false }, t ++ [.consoleError label e], none⟩

/-- The params of the request `wallet_addEthereumChain`. -/
def sepoliaChain : JSVal :=
  .arr [.obj
    [("chainId", .str "0xaa36a7"),
     ("chainName", .str "Sepolia Test Network"),
     ("rpcUrls", .arr [.str "https://sepolia.infura.io/v3/"]),
     ("nativeCurrency", .obj
        [("name", .str "ETH"), ("symbol", .str "ETH"), ("decimals", .num (Num.ofInt 18))]),
     ("blockExplorerUrls", .arr [.str "https://sepolia.etherscan.io/"])]]

/-- The network check of `connectWallet`: the requests made after
`eth_chainId` answered `chainId`, and the value thrown to the outer `catch`,
if any. -/
def switchToSepolia (eth : Provider) (chainId : JSVal) : List Event × Option JSVal :=
  if chainId.isStr "0xaa36a7" then ([], none)
  else
    let params : JSVal := .arr [.obj [("chainId", .str "0xaa36a7")]]
    match eth.request "wallet_switchEthereumChain" (some params) with
    | .ok _ => ([.request "wallet_switchEthereumChain" (some params)], none)
    | .error switchError =>
      match switchError.getProp "code" with
      | .error e => ([.request "wallet_switchEthereumChain" (some params)], some e)
      | .ok code =>
        if code.isNum (Num.ofInt 4902) then
          match eth.request "wallet_addEthereumChain" (some sepoliaChain) with
          | .ok _ =>
            ([.request "wallet_switchEthereumChain" (some params),
              .request "wallet_addEthereumChain" (some sepoliaChain)], none)
          | .error e =>
            ([.request "wallet_switchEthereumChain" (some params),
              .request "wallet_addEthereumChain" (some sepoliaChain)], some e)
        else ([.request "wallet_switchEthereumChain" (some params)], none)

/-- The handler `connectWallet`.  `ethereum` is `window.ethereum`. -/
def connectWallet (ethereum : Option Provider) (lib : Ethers) (balance : String) (s : State) :
    Outcome State :=
  let label := "Wallet connection failed:"
  let msg := "Wallet connection failed ❌ Please try again"
  match ethereum with
  | none => ⟨{ s with loading := false }, [.alert "Please install MetaMask!"], none⟩
  | some eth =>
    let s1 := { s with loading := true, message := .lit "Connecting to MetaMask..." }
    let t1 : List Event := [.request "eth_requestAccounts" none]
    match eth.request "eth_requestAccounts" none with
    | .error e => failed label msg s1 t1 e
    | .ok accounts =>
      let t2 := t1 ++ [.request "eth_chainId" none]
      match eth.request "eth_chainId" none with
      | .error e => failed label msg s1 t2 e
      | .ok chainId =>
        match switchToSepolia eth chainId with
        | (t, some e) => failed label msg s1 (t2 ++ t) e
        | (t, none) =>
          let t3 := t2 ++ t ++ [.getSigner]
          match lib.getSigner eth with
          | .error e => failed label msg s1 t3 e
          | .ok signer =>
            let t4 := t3 ++ [.newContract CONTRACT_ADDRESS]
            match lib.newContract CONTRACT_ADDRESS CONTRACT_ABI signer with
            | .error e => failed label msg s1 t4 e
            | .ok contractInstance =>
              match accounts.first with
              | .error e => failed label msg s1 t4 e
              | .ok a =>
                let s2 := { s1 with
                  account := a
                  contract := some contractInstance
                  message := .lit "Connected to Sepolia! Ready for encrypted pension management 🏦" }
                let r := loadAccountInfo balance (some contractInstance) s2
                ⟨{ r.1 with loading := false }, t4 ++ r.2, none⟩

/-- The handler `createAccount`. -/
def createAccount (balance : String) (s : State) : Outcome State :=
  let label := "Create account failed:"
  let msg := "Failed to create account ❌"
  match s.contract with
  | none => ⟨{ s with message := .lit "Please connect wallet and enter retirement age!" }, [], none⟩
  | some c =>
    if s.retirementAge = "" then
      ⟨{ s with message := .lit "Please connect wallet and enter retirement age!" }, [], none⟩
    else
      let age := parseInt s.retirementAge
      if age.lt (Num.ofInt 55) || age.gt (Num.ofInt 75) then
        ⟨{ s with message := .lit "Retirement age must be between 55-75 years!" }, [], none⟩
      else
        let s1 := { s with loading := true, message := .lit "Creating pension account on blockchain..." }
        match invoke c.createPensionAccount "createPensionAccount" [.num age] with
        | (t, .error e) => failed label msg s1 t e
        | (t, .ok tx) =>
          let s2 := { s1 with message := .lit "Transaction sent! Creating your secure pension account..." }
          let t2 := t ++ [.wait "createPensionAccount"]
          match tx.wait with
          | .error e => failed label msg s2 t2 e
          | .ok _ =>
            let s3 := { s2 with
              message := .tmpl "Pension account created successfully! Retirement at age " age " 🎉" }
            let r := loadAccountInfo balance s.contract s3
            ⟨{ r.1 with loading := false }, t2 ++ r.2, none⟩

/-- The handler `makeContribution`. -/
def makeContribution (lib : Ethers) (balance : String) (s : State) : Outcome State :=
  let label := "Contribution failed:"
  let msg := "Failed to make contribution ❌"
  match s.contract with
  | none => ⟨{ s with message := .lit "Please enter contribution amount!" }, [], none⟩
  | some c =>
    if s.contributionAmount = "" then
      ⟨{ s with message := .lit "Please enter contribution amount!" }, [], none⟩
    else
      let amount := parseFloat s.contributionAmount
      if amount.le (Num.ofInt 0) then
        ⟨{ s with message := .lit "Contribution amount must be positive!" }, [], none⟩
      else
        let s1 := { s with loading := true, message := .lit "Processing encrypted contribution..." }
        match lib.parseEther "0.001" with
        | .error e => failed label msg s1 [] e
        | .ok value =>
          match invoke c.makeContribution "makeContribution"
              [.num amount.floor, .obj [("value", value)]] with
          | (t, .error e) => failed label msg s1 t e
          | (t, .ok tx) =>
            let s2 := { s1 with
              message := .lit "Transaction sent! Your contribution is being encrypted and stored..." }
            let t2 := t ++ [.wait "makeContribution"]
            match tx.wait with
            | .error e => failed label msg s2 t2 e
            | .ok _ =>
              let s3 := { s2 with
                message := .tmpl "Contribution of " amount " ETH made successfully! 💰"
                contributionAmount := "" }
              let r := loadAccountInfo balance s.contract s3
              ⟨{ r.1 with loading := false }, t2 ++ r.2, none⟩

/-- The handler `selectStrategy(strategyId)`. -/
def selectStrategy (balance : String) (strategyId : Num) (s : State) : Outcome State :=
  let label := "Strategy selection failed:"
  let msg := "Failed to select strategy ❌"
  match s.contract with
  | none => ⟨{ s with message := .lit "Please connect wallet first!" }, [], none⟩
  | some c =>
    let s1 := { s with loading := true, message := .lit "Selecting investment strategy..." }
    match invoke c.selectInvestmentOption "selectInvestmentOption" [.num strategyId] with
    | (t, .error e) => failed label msg s1 t e
    | (t, .ok tx) =>
      let s2 := { s1 with message := .lit "Transaction sent! Updating your investment strategy..." }
      let t2 := t ++ [.wait "selectInvestmentOption"]
      match tx.wait with
      | .error e => failed label msg s2 t2 e
      | .ok _ =>
        match strategies.find? (fun st => decide (st.id = strategyId ∧ strategyId ≠ .nan)) with
        | none =>
          failed label msg s2 t2
            (JSVal.typeError "Cannot read properties of undefined (reading name)")
        | some strategy =>
          let s3 := { s2 with
            message := .lit (strategy.name ++ " strategy selected successfully! " ++ strategy.icon)
            selectedStrategy := strategyId }
          let r := loadAccountInfo balance s.contract s3
          ⟨{ r.1 with loading := false }, t2 ++ r.2, none⟩

/-- The handler `calculateReturns`. -/
def calculateReturns (balance : String) (s : State) : Outcome State :=
  let label := "Calculate returns failed:"
  let msg := "Failed to calculate returns ❌"
  match s.contract with
  | none => ⟨s, [], none⟩
  | some c =>
    let s1 := { s with loading := true, message := .lit "Calculating encrypted returns..." }
    match invoke c.calculateReturns "calculateReturns" [] with
    | (t, .error e) => failed label msg s1 t e
    | (t, .ok tx) =>
      let t2 := t ++ [.wait "calculateReturns"]
      match tx.wait with
      | .error e => failed label msg s1 t2 e
      | .ok _ =>
        let s3 := { s1 with message := .lit "Returns calculated and added to your balance! 📈" }
        let r := loadAccountInfo balance s.contract s3
        ⟨{ r.1 with loading := false }, t2 ++ r.2, none⟩

/-- The handler `initiateRetirement`. -/
def initiateRetirement (balance : String) (s : State) : Outcome State :=
  let label := "Initiate retirement failed:"
  let msg := "Failed to initiate retirement ❌"
  match s.contract with
  | none => ⟨{ s with message := .lit "Please connect wallet first!" }, [], none⟩
  | some c =>
    let s1 := { s with loading := true, message := .lit "Initiating retirement on blockchain..." }
    match invoke c.initiateRetirement "initiateRetirement" [] with
    | (t, .error e) => failed label msg s1 t e
    | (t, .ok tx) =>
      let s2 := { s1 with message := .lit "Transaction sent! Processing retirement request..." }
      let t2 := t ++ [.wait "initiateRetirement"]
      match tx.wait with
      | .error e => failed label msg s2 t2 e
      | .ok _ =>
        let s3 := { s2 with
          message := .lit "Retirement initiated successfully! You can now make withdrawals 🎉" }
        let r := loadAccountInfo balance s.contract s3
        ⟨{ r.1 with loading := false }, t2 ++ r.2, none⟩

/-- The test `!accountInfo?.isRetired`. -/
def notRetired (accountInfo : Option AccountInfo) : Bool :=
  match accountInfo with
  | none => true
  | some info => !info.isRetired

/-- The handler `withdrawFunds(amount)`; the page calls it with the string
`contributionAmount`. -/
def withdrawFunds (lib : Ethers) (balance : String) (amount : String) (s : State) :
    Outcome State :=
  let label := "Withdrawal failed:"
  let msg := "Failed to process withdrawal ❌"
  match s.contract with
  | none =>
    ⟨{ s with message := .lit "Please connect wallet and enter withdrawal amount!" }, [], none⟩
  | some c =>
    if amount = "" then
      ⟨{ s with message := .lit "Please connect wallet and enter withdrawal amount!" }, [], none⟩
    else if notRetired s.accountInfo then
      ⟨{ s with message := .lit "You must be retired to make withdrawals!" }, [], none⟩
    else
      let withdrawAmount := parseFloat amount
      if withdrawAmount.le (Num.ofInt 0) then
        ⟨{ s with message := .lit "Withdrawal amount must be positive!" }, [], none⟩
      else
        let s1 := { s with loading := true, message := .lit "Processing encrypted withdrawal..." }
        match lib.parseEther "0.001" with
        | .error e => failed label msg s1 [] e
        | .ok value =>
          match invoke c.withdraw "withdraw"
              [.num withdrawAmount.floor, .obj [("value", value)]] with
          | (t, .error e) => failed label msg s1 t e
          | (t, .ok tx) =>
            let s2 := { s1 with message := .lit "Transaction sent! Processing withdrawal..." }
            let t2 := t ++ [.wait "withdraw"]
            match tx.wait with
            | .error e => failed label msg s2 t2 e
            | .ok _ =>
              let s3 := { s2 with
                message := .tmpl "Withdrawal of " withdrawAmount " ETH processed successfully! 💰" }
              let r := loadAccountInfo balance s.contract s3
              ⟨{ r.1 with loading := false }, t2 ++ r.2, none⟩

end App

/-! ## The context: `src/frontend/src/contexts/PensionContext.js` -/

/-- The object `pensionAccount` held by `PensionProvider`: the elements of the
tuple as they came from the contract read. -/
structure PensionAccount where
  retirementAge : Numeric
  lastContribution : Numeric
  isRetired : Bool
  selectedInvestment : Numeric
  deriving DecidableEq

namespace PensionContext

/-- The effect of `PensionProvider` that depends on `accountInfo` (the `data`
of the contract read, `none` while it is `undefined`): the value of
`pensionAccount` after it ran. -/
def syncPensionAccount (accountInfo : Option AccountTuple)
    (pensionAccount : Option PensionAccount) : Option PensionAccount :=
  match accountInfo with
  | none => pensionAccount
  | some info =>
    some
      { retirementAge := info.v0
        lastContribution := info.v1
        isRetired := info.v2
        selectedInvestment := info.v3 }

/-- An entry of `investmentOptions`. -/
structure InvestmentOption where
  id : Num
  name : String
  riskLevel : Num
  deriving DecidableEq

/-- What the hooks of the library `wagmi` return to `PensionProvider` in a
render: the `data` and `isLoading` of the contract read, and for each contract
write its function `write` (the outcome of awaiting a call of it with the given
arguments) and its `isLoading`.  The field names are the local names of the
source; the write of `createAccount` is configured with the function name
`createPensionAccount`, `makeContribution` with `makeContribution`,
`selectInvestment` with `selectInvestmentOption`, `initiateRetirement` with
`initiateRetirement` and `withdrawFunds` with `withdraw`. -/
structure Hooks where
  accountInfo : Option AccountTuple
  isLoading : Bool
  createAccount : Method Unit
  isCreatingAccount : Bool
  makeContribution : Method Unit
  isContributing : Bool
  selectInvestment : Method Unit
  isSelectingInvestment : Bool
  initiateRetirement : Method Unit
  isInitiatingRetirement : Bool
  withdrawFunds : Method Unit
  isWithdrawing : Bool

/-- The `useState` cells of `PensionProvider`. -/
structure State where
  pensionAccount : Option PensionAccount
  loading : Bool
  investmentOptions : List InvestmentOption

/-- The body shared in shape by the five actions: `setLoading(true)`, await the
write, on rejection `console.error(label, error)` and rethrow, and in every case
`setLoading(false)`. -/
def relay (label functionName : String) (write : Method Unit) (args : List JSVal)
    (s : State) : Outcome State :=
  match write args with
  | .ok _ => ⟨{ s with loading := false }, [.write functionName args], none⟩
  | .error e =>
    ⟨{ s with loading := false }, [.write functionName args, .consoleError label e], some e⟩

/-- The action `createPensionAccount(retirementAge, encryptedAge)`. -/
def createPensionAccount (h : Hooks) (retirementAge encryptedAge : JSVal) (s : State) :
    Outcome State :=
  relay "Error creating pension account:" "createPensionAccount" h.createAccount
    [.obj [("args", .arr [retirementAge, encryptedAge])]] s

/-- The action `contribute(encryptedAmount)`. -/
def contribute (h : Hooks) (encryptedAmount : JSVal) (s : State) : Outcome State :=
  relay "Error making contribution:" "makeContribution" h.makeContribution
    [.obj [("args", .arr [encryptedAmount])]] s

/-- The action `selectInvestmentOption(optionId)`. -/
def selectInvestmentOption (h : Hooks) (optionId : JSVal) (s : State) : Outcome State :=
  relay "Error selecting investment:" "selectInvestmentOption" h.selectInvestment
    [.obj [("args", .arr [optionId])]] s

/-- The action `startRetirement()`. -/
def startRetirement (h : Hooks) (s : State) : Outcome State :=
  relay "Error initiating retirement:" "initiateRetirement" h.initiateRetirement [] s

/-- The action `withdraw(encryptedAmount)`. -/
def withdraw (h : Hooks) (encryptedAmount : JSVal) (s : State) : Outcome State :=
  relay "Error processing withdrawal:" "withdraw" h.withdrawFunds
    [.obj [("args", .arr [encryptedAmount])]] s

/-- The object `value` that `PensionProvider` hands to its descendants. -/
structure Value where
  pensionAccount : Option PensionAccount
  investmentOptions : List InvestmentOption
  loading : Bool
  isCreatingAccount : Bool
  isContributing : Bool
  isSelectingInvestment : Bool
  isInitiatingRetirement : Bool
  isWithdrawing : Bool
  createPensionAccount : JSVal → JSVal → State → Outcome State
  contribute : JSVal → State → Outcome State
  selectInvestmentOption : JSVal → State → Outcome State
  startRetirement : State → Outcome State
  withdraw : JSVal → State → Outcome State

/-- The constant `value` of a render of `PensionProvider`. -/
def value (h : Hooks) (s : State) : Value :=
  { pensionAccount := s.pensionAccount
    investmentOptions := s.investmentOptions
    loading := s.loading || h.isLoading
    isCreatingAccount := h.isCreatingAccount
    isContributing := h.isContributing
    isSelectingInvestment := h.isSelectingInvestment
    isInitiatingRetirement := h.isInitiatingRetirement
    isWithdrawing := h.isWithdrawing
    createPensionAccount := createPensionAccount h
    contribute := contribute h
    selectInvestmentOption := selectInvestmentOption h
    startRetirement := startRetirement h
    withdraw := withdraw h }

/-- The hook `usePension`.  `context` is what `useContext(PensionContext)`
returns: the `value` of the nearest enclosing `PensionProvider`, or `undefined`
(`none`) when there is none, the context having no default value. -/
def usePension (context : Option Value) : Except JSVal Value :=
  match context with
  | none => .error (JSVal.error "usePension must be used within a PensionProvider")
  | some v => .ok v

/-- The five actions of the context, with their arguments. -/
inductive Action
  | createPensionAccount (retirementAge encryptedAge : JSVal)
  | contribute (encryptedAmount : JSVal)
  | selectInvestmentOption (optionId : JSVal)
  | startRetirement
  | withdraw (encryptedAmount : JSVal)

/-- Running an action. -/
def Action.run (h : Hooks) : Action → State → Outcome State
  | .createPensionAccount retirementAge encryptedAge =>
    PensionContext.createPensionAccount h retirementAge encryptedAge
  | .contribute encryptedAmount => PensionContext.contribute h encryptedAmount
  | .selectInvestmentOption optionId => PensionContext.selectInvestmentOption h optionId
  | .startRetirement => PensionContext.startRetirement h
  | .withdraw encryptedAmount => PensionContext.withdraw h encryptedAmount

/-- The contract function the action corresponds to. -/
def Action.functionName : Action → String
  | .createPensionAccount _ _ => "createPensionAccount"
  | .contribute _ => "makeContribution"
  | .selectInvestmentOption _ => "selectInvestmentOption"
  | .startRetirement => "initiateRetirement"
  | .withdraw _ => "withdraw"

/-- The `write` function configured for that contract function. -/
def Action.write (h : Hooks) : Action → Method Unit
  | .createPensionAccount _ _ => h.createAccount
  | .contribute _ => h.makeContribution
  | .selectInvestmentOption _ => h.selectInvestment
  | .startRetirement => h.initiateRetirement
  | .withdraw _ => h.withdrawFunds

/-- The arguments of the action, in order. -/
def Action.arguments : Action → List JSVal
  | .createPensionAccount retirementAge encryptedAge => [retirementAge, encryptedAge]
  | .contribute encryptedAmount => [encryptedAmount]
  | .selectInvestmentOption optionId => [optionId]
  | .startRetirement => []
  | .withdraw encryptedAmount => [encryptedAmount]

/-- What the claim says the write is called with: the object with `args` set
to the arguments of the action, and nothing for the action without
arguments. -/
def Action.expectedCall : Action → List JSVal
  | .startRetirement => []
  | a => [.obj [("args", .arr a.arguments)]]

end PensionContext

/-! ## The profile page: `src/frontend/src/pages/Profile.js` -/

namespace Profile

/-- The state of the component `Profile`. -/
structure State where
  retirementAge : Num
  currentAge : Num
  isCreating : Bool

/-- The initial values of the `useState` cells. -/
def State.initial : State :=
  { retirementAge := Num.ofInt 65, currentAge := Num.ofInt 30, isCreating := false }

/-- The expression `x || d` on Numbers. -/
def orElse (x d : Num) : Num := if x.truthy then x else d

/-- What the user can do to the two inputs of the form. -/
inductive Input
  | currentAge (value : String)
  | retirementAge (value : String)

/-- The `onChange` handlers: `setCurrentAge(parseInt(e.target.value) || 30)` and
`setRetirementAge(parseInt(e.target.value) || 65)`. -/
def onChange (s : State) : Input → State
  | .currentAge v => { s with currentAge := orElse (parseInt v) (Num.ofInt 30) }
  | .retirementAge v => { s with retirementAge := orElse (parseInt v) (Num.ofInt 65) }

/-- The state after a sequence of edits of the form, from the initial one. -/
def afterInputs (inputs : List Input) : State := inputs.foldl onChange State.initial

/-- The validation at the head of `handleCreateAccount`: neither of its two
tests holds. -/
def passesValidation (s : State) : Bool :=
  !(s.retirementAge.lt (Num.ofInt 55) || s.retirementAge.gt (Num.ofInt 75)) &&
    !(s.currentAge.ge s.retirementAge)

/-- The handler `handleCreateAccount`.  `createPensionAccount` is the action
of the context: the outcome of awaiting it on the given arguments. -/
def handleCreateAccount (createPensionAccount : Method Unit) (s : State) : Outcome State :=
  if s.retirementAge.lt (Num.ofInt 55) || s.retirementAge.gt (Num.ofInt 75) then
    ⟨s, [.toastError "Retirement age must be between 55 and 75"], none⟩
  else if s.currentAge.ge s.retirementAge then
    ⟨s, [.toastError "Retirement age must be greater than current age"], none⟩
  else
    let encryptedAge : JSVal := .bytes (List.replicate 32 0)
    let args : List JSVal := [.num s.retirementAge, encryptedAge]
    match createPensionAccount args with
    | .ok _ =>
      ⟨{ s with isCreating := false },
        [.action "createPensionAccount" args, .toastSuccess "Pension account created successfully!"],
        none⟩
    | .error e =>
      ⟨{ s with isCreating := false },
        [.action "createPensionAccount" args, .consoleError "Error creating account:" e,
          .toastError "Failed to create pension account"],
        none⟩

end Profile

/-! ## The retirement page: `src/frontend/src/pages/Retirement.js` -/

namespace Retirement

/-- The state of the component `Retirement`. -/
structure State where
  withdrawAmount : String
  isProcessing : Bool
  contract : Option Contract

/-- The `if` chain of the `catch` block of `handleWithdrawal`: the toast it
shows, or the value it throws itself. -/
def errorToast (error : JSVal) : Except JSVal String :=
  match error.getProp "code" with
  | .error e => .error e
  | .ok code =>
    if code.isStr "ACTION_REJECTED" then .ok "Transaction rejected by user"
    else
      match error.getProp "message" with
      | .error e => .error e
      | .ok message =>
        match includes message "Must be retired" with
        | .error e => .error e
        | .ok true => .ok "You must be in retirement status to make withdrawals"
        | .ok false =>
          match includes message "insufficient funds" with
          | .error e => .error e
          | .ok true => .ok "Insufficient balance for withdrawal"
          | .ok false => .ok "Failed to process withdrawal. Please try again."

/-- The `catch` and `finally` blocks of `handleWithdrawal`. -/
def caught (s : State) (t : List Event) (error : JSVal) : Outcome State :=
  let t1 := t ++ [.consoleError "Error processing withdrawal:" error, .toastDismiss]
  match errorToast error with
  | .ok text => ⟨{ s with isProcessing := false }, t1 ++ [.toastError text], none⟩
  | .error e => ⟨{ s with isProcessing := false }, t1, some e⟩

/-- The handler `handleWithdrawal`. -/
def handleWithdrawal (lib : Ethers) (s : State) : Outcome State :=
  if s.withdrawAmount = "" ∨ (parseFloat s.withdrawAmount).le (Num.ofInt 0) = true then
    ⟨s, [.toastError "Please enter a valid withdrawal amount"], none⟩
  else
    match s.contract with
    | none => ⟨s, [.toastError "Contract not connected. Please refresh the page."], none⟩
    | some c =>
      let s1 := { s with isProcessing := true }
      let amount := (parseFloat s.withdrawAmount).floor
      let t1 : List Event :=
        [.toastLoading "Processing encrypted withdrawal...",
         .toastLoading "Sending withdrawal transaction to blockchain..."]
      match lib.parseEther "0.001" with
      | .error e => caught s1 t1 e
      | .ok value =>
        match invoke c.withdraw "withdraw" [.num amount, .obj [("value", value)]] with
        | (t, .error e) => caught s1 (t1 ++ t) e
        | (t, .ok tx) =>
          let t2 := t1 ++ t ++
            [.toastLoading "Transaction sent! Waiting for blockchain confirmation...",
             .wait "withdraw"]
          match tx.wait with
          | .error e => caught s1 t2 e
          | .ok _ =>
            let t3 := t2 ++
              [.toastDismiss,
               .toastSuccess ("Withdrawal of " ++ s.withdrawAmount ++
                 " ETH processed successfully! 💰")]
            let s2 := { s1 with withdrawAmount := "" }
            match invoke c.once "once" [.str "WithdrawalMade"] with
            | (t, .error e) => caught s2 (t3 ++ t) e
            | (t, .ok _) => ⟨{ s2 with isProcessing := false }, t3 ++ t, none⟩

/-- The function `calculateYearsToRetirement`, on the `pensionAccount` of the
context.  The unused `currentYear` is left out; `currentAge` is the constant 30
of the source.  Subtracting the Number 30 from a BigInt raises a
`TypeError`. -/
def calculateYearsToRetirement (pensionAccount : Option PensionAccount) : Except JSVal Num :=
  match pensionAccount with
  | none => .ok (Num.ofInt 0)
  | some account =>
    match account.retirementAge with
    | .number x =>
      if x.truthy then .ok (Num.max (Num.ofInt 0) (x.sub (Num.ofInt 30)))
      else .ok (Num.ofInt 0)
    | .bigint n =>
      if n = 0 then .ok (Num.ofInt 0)
      else .error (JSVal.typeError "Cannot mix BigInt and other types, use explicit conversions")

/-- The expression `pensionAccount?.isRetired`, as a condition. -/
def isRetired (pensionAccount : Option PensionAccount) : Bool :=
  match pensionAccount with
  | none => false
  | some account => account.isRetired

/-- The constant `isEligibleForRetirement` of a render:
`pensionAccount?.isRetired || yearsToRetirement <= 0`. -/
def isEligibleForRetirement (pensionAccount : Option PensionAccount) : Except JSVal Bool :=
  match calculateYearsToRetirement pensionAccount with
  | .error e => .error e
  | .ok yearsToRetirement =>
    .ok (isRetired pensionAccount || yearsToRetirement.le (Num.ofInt 0))

/-- The three cards of the column "Retirement Actions". -/
inductive Card
  | initiateRetirement
  | makeWithdrawal
  | retirementPending
  deriving DecidableEq

/-- The cards of the column "Retirement Actions" that a render shows, in page
order, under the conditions `!pensionAccount?.isRetired && isEligibleForRetirement`,
`pensionAccount?.isRetired` and `!isEligibleForRetirement`; the render throws
when `calculateYearsToRetirement` does. -/
def actionCards (pensionAccount : Option PensionAccount) : Except JSVal (List Card) :=
  match isEligibleForRetirement pensionAccount with
  | .error e => .error e
  | .ok eligible =>
    .ok ((if !(isRetired pensionAccount) && eligible then [.initiateRetirement] else []) ++
      (if isRetired pensionAccount then [.makeWithdrawal] else []) ++
      (if !eligible then [.retirementPending] else []))

end Retirement

/-! ## The contributions page: `src/frontend/src/pages/Contributions.js` -/

namespace Contributions

/-- The state of the component `Contributions`. -/
structure State where
  contributionAmount : String
  isLoading : Bool

/-- Whether the characters, after the mantissa of a number, are empty or an
exponent: `e` or `E`, an optional `-` or `+`, and one or more digits up to the
end. -/
def validExponent : List Char → Bool
  | [] => true
  | c :: cs =>
    (c = 'e' || c = 'E') &&
      (let ds : List Char :=
        match cs with
        | '-' :: r => r
        | '+' :: r => r
        | r => r
       let sp := spanDigits 10 ds
       decide (sp.1 ≠ []) && decide (sp.2 = []))

/-- Whether the characters are a number without sign: one or more digits, or a
`.` followed by one or more digits, or both in this order; optionally an
exponent. -/
def validUnsigned (cs : List Char) : Bool :=
  let ip := spanDigits 10 cs
  match ip.2 with
  | '.' :: r =>
    let fp := spanDigits 10 r
    decide (fp.1 ≠ []) && validExponent fp.2
  | r => decide (ip.1 ≠ []) && validExponent r

/-- Whether a string is a valid floating-point number of the HTML standard: an
optional `-`, then a number without sign. -/
def isValidFloatingPointNumber (s : String) : Bool :=
  match s.data with
  | '-' :: r => validUnsigned r
  | r => validUnsigned r

/-- The `value` of an `<input type="number">` whose field holds `text`: the
text when it is a valid floating-point number, the empty string otherwise (the
value sanitization of the HTML standard for this type of input). -/
def numberInputValue (text : String) : String :=
  if isValidFloatingPointNumber text then text else ""

/-- The `onChange` handler of the amount field, an `<input type="number">`:
`setContributionAmount(e.target.value)`, after the user left `text` in the
field. -/
def onChange (s : State) (text : String) : State :=
  { s with contributionAmount := numberInputValue text }

/-- The handler `handleContribution`.  `encryptValue` is the function the hook
`useFHE` returns (from `contexts/FHEContext`, which is not embedded here) and
`contribute` the action of the pension context: each is the outcome of awaiting
a call with the given arguments. -/
def handleContribution (encryptValue : Method JSVal) (contribute : Method Unit) (s : State) :
    Outcome State :=
  if s.contributionAmount = "" ∨ (parseFloat s.contributionAmount).le (Num.ofInt 0) = true then
    ⟨s, [.toastError "Please enter a valid contribution amount"], none⟩
  else
    let amount := parseFloat s.contributionAmount
    match encryptValue [.num amount] with
    | .error e =>
      ⟨{ s with isLoading := false },
        [.action "encryptValue" [.num amount],
         .consoleError "Error making contribution:" e,
         .toastError "Failed to make contribution"], none⟩
    | .ok encryptedAmount =>
      match contribute [encryptedAmount] with
      | .error e =>
        ⟨{ s with isLoading := false },
          [.action "encryptValue" [.num amount], .action "contribute" [encryptedAmount],
           .consoleError "Error making contribution:" e,
           .toastError "Failed to make contribution"], none⟩
      | .ok _ =>
        ⟨{ s with contributionAmount := "", isLoading := false },
          [.action "encryptValue" [.num amount], .action "contribute" [encryptedAmount],
           .toastSuccess "Contribution made successfully!"], none⟩

end Contributions

/-! ## The six action handlers of `App.js` under one name -/

namespace App

/-- The action handlers of `App.js` that write to the contract, with the
argument the page passes to them. -/
inductive Action
  | createAccount
  | makeContribution
  | selectStrategy (strategyId : Num)
  | calculateReturns
  | initiateRetirement
  | withdrawFunds (amount : String)
  deriving DecidableEq

/-- Running the handler. -/
def Action.run (lib : Ethers) (balance : String) : Action → State → Outcome State
  | .createAccount => App.createAccount balance
  | .makeContribution => App.makeContribution lib balance
  | .selectStrategy strategyId => App.selectStrategy balance strategyId
  | .calculateReturns => App.calculateReturns balance
  | .initiateRetirement => App.initiateRetirement balance
  | .withdrawFunds amount => App.withdrawFunds lib balance amount

/-- The contract method the handler calls. -/
def Action.method : Action → String
  | .createAccount => "createPensionAccount"
  | .makeContribution => "makeContribution"
  | .selectStrategy _ => "selectInvestmentOption"
  | .calculateReturns => "calculateReturns"
  | .initiateRetirement => "initiateRetirement"
  | .withdrawFunds _ => "withdraw"

/-- That method on a contract-like object. -/
def Action.member (c : Contract) : Action → Option (Method Tx)
  | .createAccount => c.createPensionAccount
  | .makeContribution => c.makeContribution
  | .selectStrategy _ => c.selectInvestmentOption
  | .calculateReturns => c.calculateReturns
  | .initiateRetirement => c.initiateRetirement
  | .withdrawFunds _ => c.withdraw

/-- The string the `catch` block of the handler passes to `setMessage`. -/
def Action.failure : Action → String
  | .createAccount => "Failed to create account ❌"
  | .makeContribution => "Failed to make contribution ❌"
  | .selectStrategy _ => "Failed to select strategy ❌"
  | .calculateReturns => "Failed to calculate returns ❌"
  | .initiateRetirement => "Failed to initiate retirement ❌"
  | .withdrawFunds _ => "Failed to process withdrawal ❌"

/-- The tests at the head of the handler that come after the test of
`contract`, and the arguments of its contract call: `none` when one of the tests
returns early, or when `ethers.parseEther` throws before the call, else the
arguments the handler passes to its contract method. -/
def Action.callArgs (lib : Ethers) (s : State) : Action → Option (List JSVal)
  | .createAccount =>
    if s.retirementAge = "" then none
    else if (parseInt s.retirementAge).lt (Num.ofInt 55) ||
        (parseInt s.retirementAge).gt (Num.ofInt 75) then none
    else some [.num (parseInt s.retirementAge)]
  | .makeContribution =>
    if s.contributionAmount = "" then none
    else if (parseFloat s.contributionAmount).le (Num.ofInt 0) then none
    else
      match lib.parseEther "0.001" with
      | .error _ => none
      | .ok value => some [.num (parseFloat s.contributionAmount).floor, .obj [("value", value)]]
  | .selectStrategy strategyId => some [.num strategyId]
  | .calculateReturns => some []
  | .initiateRetirement => some []
  | .withdrawFunds amount =>
    if amount = "" then none
    else if notRetired s.accountInfo then none
    else if (parseFloat amount).le (Num.ofInt 0) then none
    else
      match lib.parseEther "0.001" with
      | .error _ => none
      | .ok value => some [.num (parseFloat amount).floor, .obj [("value", value)]]

/-! ### What `App` renders -/

/-- The blocks of the page that are rendered under a condition on the
state. -/
inductive Section
  | createAccount
  | dashboard
  | retirementBanner
  | investmentStrategies
  deriving DecidableEq

/-- The button of the navigation bar: for a falsy `account` the button
"Connect Wallet", which evaluates nothing that can throw; for a truthy one the
button with the children `{account.slice(0, 6)}...{account.slice(-4)}`.  A
string has `slice` and its slices are strings; an array has `slice`, and React
then renders the elements of the two slices, throwing for a plain object among
them (the message of that error is abbreviated here); a byte buffer has `slice`
and is rendered as its Numbers; every other truthy value has no method `slice`,
so the render throws a `TypeError`. -/
def accountButton (account : JSVal) : Except JSVal Unit :=
  if account.truthy then
    match account with
    | .str _ => .ok ()
    | .bytes _ => .ok ()
    | .arr items =>
      if JSVal.renderableAll (items.take 6) && JSVal.renderableAll (items.drop (items.length - 4))
      then .ok ()
      else .error (JSVal.error "Objects are not valid as a React child")
    | _ => .error (JSVal.typeError "account.slice is not a function")
  else .ok ()

/-- The conditional blocks of the JSX that a state renders, in page order:
`account && !accountInfo`, `account && accountInfo`,
`account && accountInfo?.isRetired`, `account && accountInfo`; the render
throws when the button of the navigation bar does. -/
def sections (s : State) : Except JSVal (List Section) :=
  match accountButton s.account with
  | .error e => .error e
  | .ok _ =>
    .ok
      ((if s.account.truthy && s.accountInfo.isNone then [.createAccount] else []) ++
       (if s.account.truthy && s.accountInfo.isSome then [.dashboard] else []) ++
       (if s.account.truthy && !(notRetired s.accountInfo) then [.retirementBanner] else []) ++
       (if s.account.truthy && s.accountInfo.isSome then [.investmentStrategies] else []))

/-- A handler a click can start. -/
inductive Handler
  | connectWallet
  | action (a : Action)
  deriving DecidableEq

/-- An element of the page with an `onClick`: its tag, the handler, its
`disabled` attribute (a `div` has none, so it is never disabled) and its
text. -/
structure Control where
  tag : String
  onClick : Handler
  disabled : Bool
  text : String
  deriving DecidableEq

/-- The card of a strategy: the `div` whose `onClick` is
`() => selectStrategy(strategy.id)`.  The button inside it has
`disabled={loading}` but no `onClick` of its own. -/
def strategyCard (strategy : Strategy) : Control :=
  ⟨"div", .action (.selectStrategy strategy.id), false, strategy.name⟩

/-- The elements with an `onClick` that a state renders, in page order; the
render throws when the button of the navigation bar does. -/
def clickables (s : State) : Except JSVal (List Control) :=
  match accountButton s.account with
  | .error e => .error e
  | .ok _ =>
    .ok
      ((if s.account.truthy then []
        else
         [⟨"button", .connectWallet, s.loading,
           if s.loading then "Connecting..." else "Connect Wallet"⟩]) ++
       (if s.account.truthy && s.accountInfo.isNone then
         [⟨"button", .action .createAccount, s.loading || decide (s.retirementAge = ""),
           if s.loading then "Creating..." else "Create Account"⟩]
        else []) ++
       (match s.accountInfo with
        | none => []
        | some accountInfo =>
          if s.account.truthy then
            [⟨"button", .action .calculateReturns, s.loading,
               if s.loading then "Calculating..." else "Calculate Returns"⟩] ++
            (if !accountInfo.isRetired then
              [⟨"button", .action .initiateRetirement, s.loading,
                 if s.loading then "Processing..." else "Initiate Retirement"⟩]
             else []) ++
            (if !accountInfo.isRetired then
              [⟨"button", .action .makeContribution,
                 s.loading || decide (s.contributionAmount = ""),
                 if s.loading then "Contributing..." else "Contribute to Pension"⟩]
             else
              [⟨"button", .action (.withdrawFunds s.contributionAmount),
                 s.loading || decide (s.contributionAmount = ""),
                 if s.loading then "Processing Claim..." else "💰 Claim Pension Benefits"⟩]) ++
            strategies.map strategyCard
          else []))

end App

/-- What every handler of `App.js` does when its contract call or the wait
on its transaction rejects. -/
def App.Rejected (r : Outcome App.State) (failure method : String) (args : List JSVal) : Prop :=
  r.threw = none ∧ r.state.message = .lit failure ∧
    r.trace.filter Event.isCall = [.call method args]

/-- What every handler of `App.js` does when its contract call and the wait on
its transaction resolve: the call, the wait, then one call of `getAccountInfo`,
and no other contract call or wait. -/
def App.Refetched (r : Outcome App.State) (method : String) (args : List JSVal) : Prop :=
  r.trace.filter Event.isCallOrWait
    = [.call method args, .wait method, .call "getAccountInfo" []]

/-- The strategy id of the action, if it has one, is the `id` of an entry of
`strategies`: the page calls `selectStrategy` with `strategy.id` only. -/
def App.Action.strategyListed : App.Action → Bool
  | .selectStrategy strategyId => (App.strategies.map fun st => st.id).contains strategyId
  | _ => true

/-- Whether an effect of the shim is not a provider request with a method name
outside `allowed`. -/
def Fallback.Effect.requestsOnly (allowed : List String) : Fallback.Effect → Bool
  | .request m _ => allowed.contains m
  | .log _ => true

/-- The four method names that the specification lists for the provider-like
object. -/
def listedProviderMethods : List String :=
  ["eth_requestAccounts", "eth_chainId", "wallet_switchEthereumChain", "eth_sendTransaction"]

/-! ## Fixed environments for evaluating the handlers -/

/-- The fallback contract object, built for the application address with a
signer that answers every transaction with `null`. -/
def Fallback.sampleContract : PrivatePension.Contract :=
  Fallback.toContract
    (Fallback.Contract (.str App.CONTRACT_ADDRESS) (.arr []) ⟨.str "0xabc", fun _ => ([], .ok .null)⟩)

/-- A library whose `parseEther("0.001")` is the BigInt `10 ^ 15` and whose
contracts are the fallback object. -/
def sampleEthers : Ethers :=
  { getSigner := fun _ => .ok (.obj [("address", .str "0xabc")])
    newContract := fun _ _ _ => .ok Fallback.sampleContract
    parseEther := fun _ => .ok (.bigint 1000000000000000) }

/-- A contract-like object on which every call and every wait resolves, for an
account with retirement age 65 that is not retired. -/
def resolvingContract : Contract :=
  { createPensionAccount := some fun _ => .ok ⟨.ok (.obj [("status", .num (Num.ofInt 1))])⟩
    makeContribution := some fun _ => .ok ⟨.ok (.obj [("status", .num (Num.ofInt 1))])⟩
    selectInvestmentOption := some fun _ => .ok ⟨.ok (.obj [("status", .num (Num.ofInt 1))])⟩
    calculateReturns := some fun _ => .ok ⟨.ok (.obj [("status", .num (Num.ofInt 1))])⟩
    initiateRetirement := some fun _ => .ok ⟨.ok (.obj [("status", .num (Num.ofInt 1))])⟩
    withdraw := some fun _ => .ok ⟨.ok (.obj [("status", .num (Num.ofInt 1))])⟩
    getAccountInfo := some fun _ => .ok ⟨.bigint 65, .bigint 0, false, .bigint 0⟩
    once := some fun _ => .ok () }

/-- A wallet with the account `0xabc` on the chain `chainId` that answers a
request to switch or add a chain with `switched`. -/
def sampleProvider (chainId : String) (switched : Except JSVal JSVal) : Provider :=
  { request := fun method _ =>
      match method with
      | "eth_requestAccounts" => .ok (.arr [.str "0xabc"])
      | "eth_accounts" => .ok (.arr [.str "0xabc"])
      | "eth_chainId" => .ok (.str chainId)
      | "wallet_switchEthereumChain" => switched
      | "wallet_addEthereumChain" => switched
      | _ => .ok .null }

/-- A contract-like object on which every write method rejects with `e`. -/
def rejectingContract (e : JSVal) : Contract :=
  { createPensionAccount := some fun _ => .error e
    makeContribution := some fun _ => .error e
    selectInvestmentOption := some fun _ => .error e
    calculateReturns := some fun _ => .error e
    initiateRetirement := some fun _ => .error e
    withdraw := some fun _ => .error e
    getAccountInfo := some fun _ => .ok ⟨.bigint 65, .bigint 0, false, .bigint 0⟩
    once := some fun _ => .ok () }

/-- A contract-like object on which every write method resolves to a
transaction whose wait rejects with `e`. -/
def revertingContract (e : JSVal) : Contract :=
  { createPensionAccount := some fun _ => .ok ⟨.error e⟩
    makeContribution := some fun _ => .ok ⟨.error e⟩
    selectInvestmentOption := some fun _ => .ok ⟨.error e⟩
    calculateReturns := some fun _ => .ok ⟨.error e⟩
    initiateRetirement := some fun _ => .ok ⟨.error e⟩
    withdraw := some fun _ => .ok ⟨.error e⟩
    getAccountInfo := some fun _ => .ok ⟨.bigint 65, .bigint 0, false, .bigint 0⟩
    once := some fun _ => .ok () }

/-- A contract-like object whose `withdraw` rejects with `e` and which defines
nothing else. -/
def rejectingWithdraw (e : JSVal) : Contract :=
  { createPensionAccount := none
    makeContribution := none
    selectInvestmentOption := none
    calculateReturns := none
    initiateRetirement := none
    withdraw := some fun _ => .error e
    getAccountInfo := none
    once := none }

/-! ## Theorems -/

/-- The parsers and the rounding on inputs whose results are known from the
language: `parseInt` stops at the first character that is not a digit and gives
`NaN` without a leading digit; `parseFloat` reads a decimal literal; `0.1` is
the binary64 number `3602879701896397 / 2 ^ 55`. -/
theorem parse_evaluations :
    parseInt "65" = Num.ofInt 65 ∧ parseInt "  -12px" = Num.ofInt (-12) ∧
    parseInt "0x1F" = Num.ofInt 31 ∧ parseInt "65.9" = Num.ofInt 65 ∧
    parseInt "1e2" = Num.ofInt 1 ∧ parseInt "abc" = .nan ∧ parseInt "" = .nan ∧
    parseFloat "1.5e1" = Num.ofInt 15 ∧ parseFloat "1e" = Num.ofInt 1 ∧
    parseFloat "2." = Num.ofInt 2 ∧ parseFloat "." = .nan ∧ parseFloat "abc" = .nan ∧
    parseFloat "-0.25" = .fin (-1) 2 ∧ parseFloat "-Infinity" = .inf true ∧
    parseFloat "0.1" = .fin 3602879701896397 55 ∧
    Num.ofBigInt (2 ^ 53 + 1) = .fin (2 ^ 53) 0 ∧
    Num.floor (.fin (-3) 1) = Num.ofInt (-2) := by
  decide

/-- C1: for every argument list, each of the five write methods of the
fallback contract object (createPensionAccount, makeContribution, withdraw,
initiateRetirement, calculateReturns) resolves to a transaction object whose
`wait()` resolves to the receipt with `status = 1`, and neither the call nor the
wait sends a request to the provider or the signer. -/
theorem fallback_write_resolves_status_one (address abi : JSVal) (signer : Fallback.Signer)
    (name : String) (hname : name ∈ Fallback.writeMethods) (args waitArgs : List JSVal) :
    ∃ f tx, Fallback.Contract address abi signer name = some (.write f) ∧
      (f args).2 = .ok tx ∧
      (tx.wait waitArgs).2 = .ok (.obj [("status", .num (Num.ofInt 1))]) ∧
      ((f args).1 ++ (tx.wait waitArgs).1).any Fallback.Effect.isRequest = false := by
  simp only [Fallback.writeMethods, List.mem_cons, List.mem_singleton, List.not_mem_nil,
    or_false] at hname
  rcases hname with h | h | h | h | h <;> subst h <;>
    exact ⟨_, Fallback.mockTx, rfl, rfl, rfl, rfl⟩

/-- Witness (C1): the write method `withdraw` called with one argument. -/
theorem fallback_write_resolves_status_one_witness :
    ∃ f tx, Fallback.Contract .null .null ⟨.null, fun _ => ([], .ok .null)⟩ "withdraw"
        = some (.write f) ∧
      (f [.num (Num.ofInt 5)]).2 = .ok tx ∧
      (tx.wait []).2 = .ok (.obj [("status", .num (Num.ofInt 1))]) ∧
      ((f [.num (Num.ofInt 5)]).1 ++ (tx.wait []).1).any Fallback.Effect.isRequest = false :=
  fallback_write_resolves_status_one .null .null ⟨.null, fun _ => ([], .ok .null)⟩ "withdraw"
    (by decide) [.num (Num.ofInt 5)] []

/-- C2 (evaluation of the code): of the seven method names the application
expects, the fallback contract object does not define `selectInvestmentOption`
(it defines the other six), and `App.selectStrategy` run against the fallback
object makes no contract call and reports the failure message. -/
theorem fallback_lacks_selectInvestmentOption (address abi : JSVal) (signer : Fallback.Signer)
    (balance : String) (strategyId : Num) :
    (Fallback.Contract address abi signer "selectInvestmentOption").isNone = true ∧
    expectedContractMethods.filter
        (fun n => (Fallback.Contract address abi signer n).isNone)
      = ["selectInvestmentOption"] ∧
    (App.selectStrategy balance strategyId
        { App.State.initial with
          contract := some (Fallback.toContract (Fallback.Contract address abi signer)) }).trace
      = [.consoleError "Strategy selection failed:"
          (JSVal.typeError "contract.selectInvestmentOption is not a function")] ∧
    (App.selectStrategy balance strategyId
        { App.State.initial with
          contract := some (Fallback.toContract (Fallback.Contract address abi signer)) }).state.message
      = .lit "Failed to select strategy ❌" := by
  refine ⟨rfl, rfl, rfl, rfl⟩

/-- C3: with no injected provider, `connectWallet` shows the alert
"Please install MetaMask!" and does nothing else observable (no provider
request, no signer, no contract), does not throw, and leaves `account`,
`contract`, `accountInfo` and `message` as they were. -/
theorem connectWallet_without_provider (lib : Ethers) (balance : String) (s : App.State) :
    (App.connectWallet none lib balance s).trace = [.alert "Please install MetaMask!"] ∧
    (App.connectWallet none lib balance s).threw = none ∧
    (App.connectWallet none lib balance s).state.account = s.account ∧
    (App.connectWallet none lib balance s).state.contract = s.contract ∧
    (App.connectWallet none lib balance s).state.accountInfo = s.accountInfo ∧
    (App.connectWallet none lib balance s).state.message = s.message :=
  ⟨rfl, rfl, rfl, rfl, rfl, rfl⟩

/-- C4 (evaluation of the code): with the form holding the string ".5",
which `parseInt` turns into `NaN`, neither range test holds and `createAccount`
calls `contract.createPensionAccount(NaN)`; against the fallback contract the
call succeeds and the success message names the age `NaN`. -/
theorem createAccount_calls_with_NaN (address abi : JSVal) (signer : Fallback.Signer)
    (balance : String) :
    parseInt ".5" = .nan ∧
    (App.createAccount balance
        { App.State.initial with
          contract := some (Fallback.toContract (Fallback.Contract address abi signer))
          retirementAge := ".5" }).trace
      = [.call "createPensionAccount" [.num .nan], .wait "createPensionAccount",
          .call "getAccountInfo" []] ∧
    (App.createAccount balance
        { App.State.initial with
          contract := some (Fallback.toContract (Fallback.Contract address abi signer))
          retirementAge := ".5" }).state.message
      = .tmpl "Pension account created successfully! Retirement at age " .nan " 🎉" := by
  refine ⟨by decide, rfl, rfl⟩

/-- The operator `<=` is the negation of the reversed `<` away from `NaN`. -/
theorem Num.le_eq_not_lt {a b : Num} (ha : a ≠ .nan) (hb : b ≠ .nan) :
    a.le b = !(b.lt a) := by
  cases a <;> cases b <;> simp_all [Num.le]

/-- The expression `x || d` is not `NaN` when `d` is not. -/
theorem Profile.orElse_ne_nan (x : Num) {d : Num} (hd : d ≠ .nan) :
    Profile.orElse x d ≠ .nan := by
  unfold Profile.orElse
  cases x <;> simp [Num.truthy, hd]
  split <;> simp [hd]

/-- Editing the form keeps both ages away from `NaN`. -/
theorem Profile.foldl_onChange_ne_nan (inputs : List Profile.Input) (s : Profile.State)
    (hr : s.retirementAge ≠ .nan) (hc : s.currentAge ≠ .nan) :
    (inputs.foldl Profile.onChange s).retirementAge ≠ .nan ∧
    (inputs.foldl Profile.onChange s).currentAge ≠ .nan := by
  induction inputs generalizing s with
  | nil => exact ⟨hr, hc⟩
  | cons i rest ih =>
    cases i with
    | currentAge v =>
      exact ih _ hr (Profile.orElse_ne_nan _ (by simp [Num.ofInt]))
    | retirementAge v =>
      exact ih _ (Profile.orElse_ne_nan _ (by simp [Num.ofInt])) hc

/-- C5: in every state the form can reach, `handleCreateAccount` calls
`createPensionAccount` exactly when `55 <= retirementAge <= 75` and
`currentAge < retirementAge`; otherwise it makes no call and its only effect is
one error toast, the range error whenever the retirement age is out of range
and the current-age error only when the range is respected. -/
theorem profile_create_iff_valid (inputs : List Profile.Input)
    (createPensionAccount : Method Unit) :
    let s := Profile.afterInputs inputs
    let r := Profile.handleCreateAccount createPensionAccount s
    let inRange := (Num.ofInt 55).le s.retirementAge && s.retirementAge.le (Num.ofInt 75)
    let valid := inRange && s.currentAge.lt s.retirementAge
    (r.trace.filter Event.isAction
        = [.action "createPensionAccount" [.num s.retirementAge, .bytes (List.replicate 32 0)]]
      ↔ valid = true) ∧
    (valid = false →
      r.trace = [.toastError
        (if inRange then "Retirement age must be greater than current age"
         else "Retirement age must be between 55 and 75")]) := by
  intro s r inRange valid
  obtain ⟨hr, hc⟩ := Profile.foldl_onChange_ne_nan inputs Profile.State.initial
    (by simp [Profile.State.initial, Num.ofInt]) (by simp [Profile.State.initial, Num.ofInt])
  have hr : s.retirementAge ≠ .nan := hr
  have hc : s.currentAge ≠ .nan := hc
  have h55 : (Num.ofInt 55).le s.retirementAge = !(s.retirementAge.lt (Num.ofInt 55)) :=
    Num.le_eq_not_lt (by simp [Num.ofInt]) hr
  have h75 : s.retirementAge.le (Num.ofInt 75) = !(s.retirementAge.gt (Num.ofInt 75)) :=
    Num.le_eq_not_lt hr (by simp [Num.ofInt])
  have hge : s.currentAge.ge s.retirementAge = !(s.currentAge.lt s.retirementAge) :=
    Num.le_eq_not_lt hr hc
  simp only [valid, inRange, r, Profile.handleCreateAccount, h55, h75, hge]
  cases h1 : s.retirementAge.lt (Num.ofInt 55) <;>
    cases h2 : s.retirementAge.gt (Num.ofInt 75) <;>
    cases h3 : s.currentAge.lt s.retirementAge <;>
    simp [Event.isAction]
  split <;> simp [List.filter, Event.isAction]

/-- C6 (evaluation of the code): with the form holding the string "0.5",
`parseFloat` gives the positive Number 0.5, the test `amount <= 0` fails, and
`makeContribution` calls `contract.makeContribution` with `Math.floor(0.5) = 0`
as its amount; against the fallback contract the call succeeds. -/
theorem makeContribution_passes_zero (address abi value : JSVal) (signer : Fallback.Signer)
    (getSigner : Provider → Except JSVal JSVal)
    (newContract : String → List String → JSVal → Except JSVal Contract) (balance : String) :
    parseFloat "0.5" = .fin 1 1 ∧
    (App.makeContribution ⟨getSigner, newContract, fun _ => .ok value⟩ balance
        { App.State.initial with
          contract := some (Fallback.toContract (Fallback.Contract address abi signer))
          contributionAmount := "0.5" }).trace
      = [.call "makeContribution" [.num (Num.ofInt 0), .obj [("value", value)]],
          .wait "makeContribution", .call "getAccountInfo" []] ∧
    (App.makeContribution ⟨getSigner, newContract, fun _ => .ok value⟩ balance
        { App.State.initial with
          contract := some (Fallback.toContract (Fallback.Contract address abi signer))
          contributionAmount := "0.5" }).state.message
      = .tmpl "Contribution of " (.fin 1 1) " ETH made successfully! 💰" := by
  refine ⟨by decide, rfl, rfl⟩

/-- C7 (the claim as stated fails): before a wallet is connected (no contract,
no account snapshot), `withdrawFunds("5")` sets the connect/enter prompt, not
the message "You must be retired to make withdrawals!". -/
theorem withdrawFunds_disconnected_counterexample :
    App.notRetired App.State.initial.accountInfo = true ∧
    (App.withdrawFunds sampleEthers "0.00" "5" App.State.initial).state.message
      = .lit "Please connect wallet and enter withdrawal amount!" ∧
    (App.withdrawFunds sampleEthers "0.00" "5" App.State.initial).state.message
      ≠ .lit "You must be retired to make withdrawals!" := by
  refine ⟨rfl, rfl, by decide⟩

/-- C7 (amended): `withdrawFunds` makes a contract call only if the snapshot
exists and has `isRetired = true`; when the snapshot is null or not retired it
does nothing observable, for every amount, and sets the message
"You must be retired to make withdrawals!" if the contract is connected and the
amount is not empty, the connect/enter prompt otherwise. -/
theorem withdrawFunds_requires_retired (lib : Ethers) (balance amount : String)
    (s : App.State) :
    ((App.withdrawFunds lib balance amount s).trace.any Event.isCall = true →
      ∃ info, s.accountInfo = some info ∧ info.isRetired = true) ∧
    (App.notRetired s.accountInfo = true →
      (App.withdrawFunds lib balance amount s).trace = [] ∧
      (App.withdrawFunds lib balance amount s).state.message
        = .lit (if s.contract.isNone = true ∨ amount = "" then
            "Please connect wallet and enter withdrawal amount!"
          else "You must be retired to make withdrawals!")) := by
  have key : App.notRetired s.accountInfo = true →
      (App.withdrawFunds lib balance amount s).trace = [] ∧
      (App.withdrawFunds lib balance amount s).state.message
        = .lit (if s.contract.isNone = true ∨ amount = "" then
            "Please connect wallet and enter withdrawal amount!"
          else "You must be retired to make withdrawals!") := by
    intro hn
    unfold App.withdrawFunds
    cases hc : s.contract with
    | none => simp
    | some c =>
      by_cases ha : amount = ""
      · simp [ha]
      · simp [ha, hn]
  refine ⟨fun hcall => ?_, key⟩
  cases hn : App.notRetired s.accountInfo with
  | true => rw [(key hn).1] at hcall; simp at hcall
  | false =>
    cases hi : s.accountInfo with
    | none => simp [App.notRetired, hi] at hn
    | some info => exact ⟨info, rfl, by simpa [App.notRetired, hi] using hn⟩

/-- Witness (C7): the amended statement at a connected state without a
snapshot and the amount "1". -/
theorem withdrawFunds_requires_retired_witness :
    (App.withdrawFunds sampleEthers "0.00" "1"
        { App.State.initial with contract := some Fallback.sampleContract }).trace = [] ∧
    (App.withdrawFunds sampleEthers "0.00" "1"
        { App.State.initial with contract := some Fallback.sampleContract }).state.message
      = .lit "You must be retired to make withdrawals!" :=
  (withdrawFunds_requires_retired sampleEthers "0.00" "1"
    { App.State.initial with contract := some Fallback.sampleContract }).2 rfl

/-- C8: when `getAccountInfo` resolves to the tuple `info`, `loadAccountInfo`
stores the snapshot with `retirementAge = Number(info[0])`,
`lastContribution = Number(info[1])`, `isRetired = info[2]` and
`selectedInvestment = Number(info[3])`; and `PensionProvider` builds its
`pensionAccount` from the same four elements, in the same order. -/
theorem snapshot_of_account_tuple (balance : String) (c : Contract) (s : App.State)
    (getAccountInfo : Method AccountTuple) (info : AccountTuple)
    (previous : Option PensionAccount)
    (hdef : c.getAccountInfo = some getAccountInfo) (hinfo : getAccountInfo [] = .ok info) :
    (App.loadAccountInfo balance (some c) s).1.accountInfo
      = some
          { retirementAge := info.v0.toNumber
            lastContribution := info.v1.toNumber
            isRetired := info.v2
            selectedInvestment := info.v3.toNumber } ∧
    PensionContext.syncPensionAccount (some info) previous
      = some
          { retirementAge := info.v0
            lastContribution := info.v1
            isRetired := info.v2
            selectedInvestment := info.v3 } := by
  refine ⟨?_, rfl⟩
  simp [App.loadAccountInfo, invoke, hdef, hinfo]

/-- Witness (C8): the tuple of the fallback contract, `[0, 0, false, 0]`. -/
theorem snapshot_of_account_tuple_witness :
    (App.loadAccountInfo "0.00" (some Fallback.sampleContract) App.State.initial).1.accountInfo
      = some
          { retirementAge := Num.ofInt 0
            lastContribution := Num.ofInt 0
            isRetired := false
            selectedInvestment := Num.ofInt 0 } ∧
    PensionContext.syncPensionAccount
        (some ⟨.number (Num.ofInt 0), .number (Num.ofInt 0), false, .number (Num.ofInt 0)⟩) none
      = some
          { retirementAge := .number (Num.ofInt 0)
            lastContribution := .number (Num.ofInt 0)
            isRetired := false
            selectedInvestment := .number (Num.ofInt 0) } :=
  snapshot_of_account_tuple "0.00" Fallback.sampleContract App.State.initial
    (fun _ => .ok ⟨.number (Num.ofInt 0), .number (Num.ofInt 0), false, .number (Num.ofInt 0)⟩)
    ⟨.number (Num.ofInt 0), .number (Num.ofInt 0), false, .number (Num.ofInt 0)⟩ none rfl rfl

/-- The only contract method `loadAccountInfo` calls is `getAccountInfo`. -/
theorem App.loadAccountInfo_call_name (balance : String) (ci : Option Contract) (s : App.State)
    (m : String) (args : List JSVal)
    (h : Event.call m args ∈ (App.loadAccountInfo balance ci s).2) : m = "getAccountInfo" := by
  unfold App.loadAccountInfo at h
  cases ci with
  | none => simp at h
  | some c =>
    cases hg : c.getAccountInfo with
    | none => simp [invoke, hg] at h
    | some g =>
      cases hr : g [] <;> simp [invoke, hg, hr] at h <;> exact h.1

/-- With `getAccountInfo` defined, `loadAccountInfo` calls it once and makes no
other contract call or wait. -/
theorem App.loadAccountInfo_refetch (balance : String) (c : Contract) (s : App.State)
    (g : Method AccountTuple) (hg : c.getAccountInfo = some g) :
    (App.loadAccountInfo balance (some c) s).2.filter Event.isCallOrWait
      = [.call "getAccountInfo" []] := by
  unfold App.loadAccountInfo
  cases hr : g [] <;> simp [invoke, hg, hr, List.filter, Event.isCallOrWait]

/-! ### The six handlers of `App.js`, path by path -/

/-- The handler `createAccount` makes no contract call when one of its tests returns
early. -/
theorem App.createAccount_no_call (lib : Ethers) (balance : String) (s : App.State)
    (h : App.Action.callArgs lib s .createAccount = none) :
    (App.createAccount balance s).trace.filter Event.isCall = [] := by
  unfold App.createAccount
  cases hc : s.contract with
  | none => rfl
  | some c =>
    simp only [App.Action.callArgs] at h
    by_cases h1 : s.retirementAge = ""
    · simp [h1]
    · simp only [h1, if_false] at h ⊢
      split at h
      · rename_i h2
        simp [h2]
      · simp at h

/-- The handler `createAccount` when its tests pass and its call, or the wait on the
transaction, rejects. -/
theorem App.createAccount_rejects (lib : Ethers) (balance : String) (s : App.State)
    (c : Contract) (f : Method Tx) (args : List JSVal) (e : JSVal)
    (hc : s.contract = some c) (hf : c.createPensionAccount = some f)
    (hargs : App.Action.callArgs lib s .createAccount = some args)
    (hrej : f args = .error e ∨ ∃ tx, f args = .ok tx ∧ tx.wait = .error e) :
    App.Rejected (App.createAccount balance s) "Failed to create account ❌"
      "createPensionAccount" args := by
  unfold App.Rejected
  simp only [App.Action.callArgs] at hargs
  by_cases h1 : s.retirementAge = ""
  · simp [h1] at hargs
  simp only [h1, if_false] at hargs
  split at hargs
  · simp at hargs
  rename_i h2
  simp only [Option.some.injEq] at hargs
  subst hargs
  unfold App.createAccount
  simp only [hc, invoke, hf, h1, h2, if_false]
  rcases hrej with hr | ⟨tx, hr, hw⟩
  · simp [hr, App.failed, List.filter, Event.isCall]
  · simp [hr, hw, App.failed, List.filter, Event.isCall]

/-- The handler `createAccount` when its tests pass and its call and the wait on the
transaction resolve. -/
theorem App.createAccount_refetches (lib : Ethers) (balance : String) (s : App.State)
    (c : Contract) (f : Method Tx) (g : Method AccountTuple) (args : List JSVal) (tx : Tx)
    (v : JSVal)
    (hc : s.contract = some c) (hf : c.createPensionAccount = some f)
    (hg : c.getAccountInfo = some g)
    (hargs : App.Action.callArgs lib s .createAccount = some args)
    (hok : f args = .ok tx) (hw : tx.wait = .ok v) :
    App.Refetched (App.createAccount balance s) "createPensionAccount" args := by
  unfold App.Refetched
  simp only [App.Action.callArgs] at hargs
  by_cases h1 : s.retirementAge = ""
  · simp [h1] at hargs
  simp only [h1, if_false] at hargs
  split at hargs
  · simp at hargs
  rename_i h2
  simp only [Option.some.injEq] at hargs
  subst hargs
  unfold App.createAccount
  simp only [hc, invoke, hf, h1, h2, if_false, hok, hw]
  simp [List.filter_append, App.loadAccountInfo_refetch _ _ _ _ hg, List.filter,
    Event.isCallOrWait]

/-- The handler `makeContribution` makes no contract call when one of its tests returns
early. -/
theorem App.makeContribution_no_call (lib : Ethers) (balance : String) (s : App.State)
    (h : App.Action.callArgs lib s .makeContribution = none) :
    (App.makeContribution lib balance s).trace.filter Event.isCall = [] := by
  unfold App.makeContribution
  cases hc : s.contract with
  | none => rfl
  | some c =>
    simp only [App.Action.callArgs] at h
    by_cases h1 : s.contributionAmount = ""
    · simp [h1]
    · simp only [h1, if_false] at h ⊢
      split at h
      · rename_i h2
        simp [h2]
      · rename_i h2
        cases hp : lib.parseEther "0.001" with
        | error e0 => simp [h2, hp, App.failed, List.filter, Event.isCall]
        | ok value => simp [hp] at h

/-- The handler `makeContribution` when its tests pass and its call, or the wait on the
transaction, rejects. -/
theorem App.makeContribution_rejects (lib : Ethers) (balance : String) (s : App.State)
    (c : Contract) (f : Method Tx) (args : List JSVal) (e : JSVal)
    (hc : s.contract = some c) (hf : c.makeContribution = some f)
    (hargs : App.Action.callArgs lib s .makeContribution = some args)
    (hrej : f args = .error e ∨ ∃ tx, f args = .ok tx ∧ tx.wait = .error e) :
    App.Rejected (App.makeContribution lib balance s) "Failed to make contribution ❌"
      "makeContribution" args := by
  unfold App.Rejected
  simp only [App.Action.callArgs] at hargs
  by_cases h1 : s.contributionAmount = ""
  · simp [h1] at hargs
  simp only [h1, if_false] at hargs
  split at hargs
  · simp at hargs
  rename_i h2
  cases hp : lib.parseEther "0.001" with
  | error e0 => simp [hp] at hargs
  | ok value =>
  simp only [hp, Option.some.injEq] at hargs
  subst hargs
  unfold App.makeContribution
  simp only [hc, invoke, hf, h1, h2, hp, if_false]
  rcases hrej with hr | ⟨tx, hr, hw⟩
  · simp [hr, App.failed, List.filter, Event.isCall]
  · simp [hr, hw, App.failed, List.filter, Event.isCall]

/-- The handler `makeContribution` when its tests pass and its call and the wait on the
transaction resolve. -/
theorem App.makeContribution_refetches (lib : Ethers) (balance : String) (s : App.State)
    (c : Contract) (f : Method Tx) (g : Method AccountTuple) (args : List JSVal) (tx : Tx)
    (v : JSVal)
    (hc : s.contract = some c) (hf : c.makeContribution = some f)
    (hg : c.getAccountInfo = some g)
    (hargs : App.Action.callArgs lib s .makeContribution = some args)
    (hok : f args = .ok tx) (hw : tx.wait = .ok v) :
    App.Refetched (App.makeContribution lib balance s) "makeContribution" args := by
  unfold App.Refetched
  simp only [App.Action.callArgs] at hargs
  by_cases h1 : s.contributionAmount = ""
  · simp [h1] at hargs
  simp only [h1, if_false] at hargs
  split at hargs
  · simp at hargs
  rename_i h2
  cases hp : lib.parseEther "0.001" with
  | error e0 => simp [hp] at hargs
  | ok value =>
  simp only [hp, Option.some.injEq] at hargs
  subst hargs
  unfold App.makeContribution
  simp only [hc, invoke, hf, h1, h2, hp, if_false, hok, hw]
  simp [List.filter_append, App.loadAccountInfo_refetch _ _ _ _ hg, List.filter,
    Event.isCallOrWait]

/-- The handler `selectStrategy` makes no contract call when one of its tests returns
early. -/
theorem App.selectStrategy_no_call (lib : Ethers) (balance : String) (strategyId : Num) (s : App.State)
    (h : App.Action.callArgs lib s (.selectStrategy strategyId) = none) :
    (App.selectStrategy balance strategyId s).trace.filter Event.isCall = [] := by
  simp [App.Action.callArgs] at h

/-- The handler `selectStrategy` when its tests pass and its call, or the wait on the
transaction, rejects. -/
theorem App.selectStrategy_rejects (lib : Ethers) (balance : String) (strategyId : Num) (s : App.State)
    (c : Contract) (f : Method Tx) (args : List JSVal) (e : JSVal)
    (hc : s.contract = some c) (hf : c.selectInvestmentOption = some f)
    (hargs : App.Action.callArgs lib s (.selectStrategy strategyId) = some args)
    (hrej : f args = .error e ∨ ∃ tx, f args = .ok tx ∧ tx.wait = .error e) :
    App.Rejected (App.selectStrategy balance strategyId s) "Failed to select strategy ❌"
      "selectInvestmentOption" args := by
  unfold App.Rejected
  simp only [App.Action.callArgs] at hargs
  simp only [Option.some.injEq] at hargs
  subst hargs
  unfold App.selectStrategy
  simp only [hc, invoke, hf, if_false]
  rcases hrej with hr | ⟨tx, hr, hw⟩
  · simp [hr, App.failed, List.filter, Event.isCall]
  · simp [hr, hw, App.failed, List.filter, Event.isCall]

/-- The handler `selectStrategy` when its call and the wait on the transaction
resolve: it refetches for the id of an entry of `strategies`; for another id
the read of `strategy.name` throws after the wait and nothing is refetched. -/
theorem App.selectStrategy_refetches (lib : Ethers) (balance : String) (strategyId : Num)
    (s : App.State) (c : Contract) (f : Method Tx) (g : Method AccountTuple)
    (args : List JSVal) (tx : Tx) (v : JSVal)
    (hc : s.contract = some c) (hf : c.selectInvestmentOption = some f)
    (hg : c.getAccountInfo = some g)
    (hargs : App.Action.callArgs lib s (.selectStrategy strategyId) = some args)
    (hok : f args = .ok tx) (hw : tx.wait = .ok v) :
    (App.selectStrategy balance strategyId s).trace.filter Event.isCallOrWait
      = [.call "selectInvestmentOption" args, .wait "selectInvestmentOption"] ++
        (if (App.Action.selectStrategy strategyId).strategyListed then
          [.call "getAccountInfo" []]
         else []) := by
  simp only [App.Action.callArgs, Option.some.injEq] at hargs
  subst hargs
  unfold App.selectStrategy
  simp only [hc, invoke, hf, hok, hw]
  by_cases hl : (App.Action.selectStrategy strategyId).strategyListed = true
  · have hfind : ∃ st, App.strategies.find?
        (fun st => decide (st.id = strategyId ∧ strategyId ≠ .nan)) = some st := by
      simp only [App.Action.strategyListed, App.strategies, List.map, List.contains_cons,
        List.contains_nil, Bool.or_false, Bool.or_eq_true, beq_iff_eq] at hl
      rcases hl with h | h | h <;> subst h <;> exact ⟨_, rfl⟩
    obtain ⟨st, hst⟩ := hfind
    simp only [hst, hl, if_true]
    simp [List.filter_append, App.loadAccountInfo_refetch _ _ _ _ hg, List.filter,
      Event.isCallOrWait]
  · have hfind : App.strategies.find?
        (fun st => decide (st.id = strategyId ∧ strategyId ≠ .nan)) = none := by
      simp only [App.Action.strategyListed, App.strategies, List.map, List.contains_cons,
        List.contains_nil, Bool.or_false, Bool.or_eq_true, beq_iff_eq, not_or] at hl
      obtain ⟨h0, h1, h2⟩ := hl
      have h0' : (Num.ofInt 0 = strategyId) = False := eq_false fun h => h0 h.symm
      have h1' : (Num.ofInt 1 = strategyId) = False := eq_false fun h => h1 h.symm
      have h2' : (Num.ofInt 2 = strategyId) = False := eq_false fun h => h2 h.symm
      simp [App.strategies, List.find?, h0', h1', h2']
    simp only [hfind, hl]
    simp [App.failed, List.filter, Event.isCallOrWait]

/-- The handler `calculateReturns` makes no contract call when one of its tests returns
early. -/
theorem App.calculateReturns_no_call (lib : Ethers) (balance : String) (s : App.State)
    (h : App.Action.callArgs lib s .calculateReturns = none) :
    (App.calculateReturns balance s).trace.filter Event.isCall = [] := by
  simp [App.Action.callArgs] at h

/-- The handler `calculateReturns` when its tests pass and its call, or the wait on the
transaction, rejects. -/
theorem App.calculateReturns_rejects (lib : Ethers) (balance : String) (s : App.State)
    (c : Contract) (f : Method Tx) (args : List JSVal) (e : JSVal)
    (hc : s.contract = some c) (hf : c.calculateReturns = some f)
    (hargs : App.Action.callArgs lib s .calculateReturns = some args)
    (hrej : f args = .error e ∨ ∃ tx, f args = .ok tx ∧ tx.wait = .error e) :
    App.Rejected (App.calculateReturns balance s) "Failed to calculate returns ❌"
      "calculateReturns" args := by
  unfold App.Rejected
  simp only [App.Action.callArgs] at hargs
  simp only [Option.some.injEq] at hargs
  subst hargs
  unfold App.calculateReturns
  simp only [hc, invoke, hf, if_false]
  rcases hrej with hr | ⟨tx, hr, hw⟩
  · simp [hr, App.failed, List.filter, Event.isCall]
  · simp [hr, hw, App.failed, List.filter, Event.isCall]

/-- The handler `calculateReturns` when its tests pass and its call and the wait on the
transaction resolve. -/
theorem App.calculateReturns_refetches (lib : Ethers) (balance : String) (s : App.State)
    (c : Contract) (f : Method Tx) (g : Method AccountTuple) (args : List JSVal) (tx : Tx)
    (v : JSVal)
    (hc : s.contract = some c) (hf : c.calculateReturns = some f)
    (hg : c.getAccountInfo = some g)
    (hargs : App.Action.callArgs lib s .calculateReturns = some args)
    (hok : f args = .ok tx) (hw : tx.wait = .ok v) :
    App.Refetched (App.calculateReturns balance s) "calculateReturns" args := by
  unfold App.Refetched
  simp only [App.Action.callArgs] at hargs
  simp only [Option.some.injEq] at hargs
  subst hargs
  unfold App.calculateReturns
  simp only [hc, invoke, hf, if_false, hok, hw]
  simp [List.filter_append, App.loadAccountInfo_refetch _ _ _ _ hg, List.filter,
    Event.isCallOrWait]

/-- The handler `initiateRetirement` makes no contract call when one of its tests returns
early. -/
theorem App.initiateRetirement_no_call (lib : Ethers) (balance : String) (s : App.State)
    (h : App.Action.callArgs lib s .initiateRetirement = none) :
    (App.initiateRetirement balance s).trace.filter Event.isCall = [] := by
  simp [App.Action.callArgs] at h

/-- The handler `initiateRetirement` when its tests pass and its call, or the wait on the
transaction, rejects. -/
theorem App.initiateRetirement_rejects (lib : Ethers) (balance : String) (s : App.State)
    (c : Contract) (f : Method Tx) (args : List JSVal) (e : JSVal)
    (hc : s.contract = some c) (hf : c.initiateRetirement = some f)
    (hargs : App.Action.callArgs lib s .initiateRetirement = some args)
    (hrej : f args = .error e ∨ ∃ tx, f args = .ok tx ∧ tx.wait = .error e) :
    App.Rejected (App.initiateRetirement balance s) "Failed to initiate retirement ❌"
      "initiateRetirement" args := by
  unfold App.Rejected
  simp only [App.Action.callArgs] at hargs
  simp only [Option.some.injEq] at hargs
  subst hargs
  unfold App.initiateRetirement
  simp only [hc, invoke, hf, if_false]
  rcases hrej with hr | ⟨tx, hr, hw⟩
  · simp [hr, App.failed, List.filter, Event.isCall]
  · simp [hr, hw, App.failed, List.filter, Event.isCall]

/-- The handler `initiateRetirement` when its tests pass and its call and the wait on the
transaction resolve. -/
theorem App.initiateRetirement_refetches (lib : Ethers) (balance : String) (s : App.State)
    (c : Contract) (f : Method Tx) (g : Method AccountTuple) (args : List JSVal) (tx : Tx)
    (v : JSVal)
    (hc : s.contract = some c) (hf : c.initiateRetirement = some f)
    (hg : c.getAccountInfo = some g)
    (hargs : App.Action.callArgs lib s .initiateRetirement = some args)
    (hok : f args = .ok tx) (hw : tx.wait = .ok v) :
    App.Refetched (App.initiateRetirement balance s) "initiateRetirement" args := by
  unfold App.Refetched
  simp only [App.Action.callArgs] at hargs
  simp only [Option.some.injEq] at hargs
  subst hargs
  unfold App.initiateRetirement
  simp only [hc, invoke, hf, if_false, hok, hw]
  simp [List.filter_append, App.loadAccountInfo_refetch _ _ _ _ hg, List.filter,
    Event.isCallOrWait]

/-- The handler `withdrawFunds` makes no contract call when one of its tests returns
early. -/
theorem App.withdrawFunds_no_call (lib : Ethers) (balance : String) (amount : String) (s : App.State)
    (h : App.Action.callArgs lib s (.withdrawFunds amount) = none) :
    (App.withdrawFunds lib balance amount s).trace.filter Event.isCall = [] := by
  unfold App.withdrawFunds
  cases hc : s.contract with
  | none => rfl
  | some c =>
    simp only [App.Action.callArgs] at h
    by_cases h1 : amount = ""
    · simp [h1]
    · simp only [h1, if_false] at h ⊢
      split at h
      · rename_i h2
        simp [h2]
      · rename_i h2
        split at h
        · rename_i h3
          simp [h2, h3]
        · rename_i h3
          cases hp : lib.parseEther "0.001" with
          | error e0 => simp [h2, h3, hp, App.failed, List.filter, Event.isCall]
          | ok value => simp [hp] at h

/-- The handler `withdrawFunds` when its tests pass and its call, or the wait on the
transaction, rejects. -/
theorem App.withdrawFunds_rejects (lib : Ethers) (balance : String) (amount : String) (s : App.State)
    (c : Contract) (f : Method Tx) (args : List JSVal) (e : JSVal)
    (hc : s.contract = some c) (hf : c.withdraw = some f)
    (hargs : App.Action.callArgs lib s (.withdrawFunds amount) = some args)
    (hrej : f args = .error e ∨ ∃ tx, f args = .ok tx ∧ tx.wait = .error e) :
    App.Rejected (App.withdrawFunds lib balance amount s) "Failed to process withdrawal ❌"
      "withdraw" args := by
  unfold App.Rejected
  simp only [App.Action.callArgs] at hargs
  by_cases h1 : amount = ""
  · simp [h1] at hargs
  simp only [h1, if_false] at hargs
  split at hargs
  · simp at hargs
  rename_i h2
  split at hargs
  · simp at hargs
  rename_i h3
  cases hp : lib.parseEther "0.001" with
  | error e0 => simp [hp] at hargs
  | ok value =>
  simp only [hp, Option.some.injEq] at hargs
  subst hargs
  unfold App.withdrawFunds
  simp only [hc, invoke, hf, h1, h2, h3, hp, if_false]
  rcases hrej with hr | ⟨tx, hr, hw⟩
  · simp [hr, App.failed, List.filter, Event.isCall]
  · simp [hr, hw, App.failed, List.filter, Event.isCall]

/-- The handler `withdrawFunds` when its tests pass and its call and the wait on the
transaction resolve. -/
theorem App.withdrawFunds_refetches (lib : Ethers) (balance : String) (amount : String) (s : App.State)
    (c : Contract) (f : Method Tx) (g : Method AccountTuple) (args : List JSVal) (tx : Tx)
    (v : JSVal)
    (hc : s.contract = some c) (hf : c.withdraw = some f)
    (hg : c.getAccountInfo = some g)
    (hargs : App.Action.callArgs lib s (.withdrawFunds amount) = some args)
    (hok : f args = .ok tx) (hw : tx.wait = .ok v) :
    App.Refetched (App.withdrawFunds lib balance amount s) "withdraw" args := by
  unfold App.Refetched
  simp only [App.Action.callArgs] at hargs
  by_cases h1 : amount = ""
  · simp [h1] at hargs
  simp only [h1, if_false] at hargs
  split at hargs
  · simp at hargs
  rename_i h2
  split at hargs
  · simp at hargs
  rename_i h3
  cases hp : lib.parseEther "0.001" with
  | error e0 => simp [hp] at hargs
  | ok value =>
  simp only [hp, Option.some.injEq] at hargs
  subst hargs
  unfold App.withdrawFunds
  simp only [hc, invoke, hf, h1, h2, h3, hp, if_false, hok, hw]
  simp [List.filter_append, App.loadAccountInfo_refetch _ _ _ _ hg, List.filter,
    Event.isCallOrWait]

/-- Whatever the handler, it makes no contract call when one of its tests
returns early. -/
theorem App.Action.run_no_call (lib : Ethers) (balance : String) (a : App.Action)
    (s : App.State) (h : a.callArgs lib s = none) :
    (a.run lib balance s).trace.filter Event.isCall = [] := by
  cases a with
  | createAccount => exact App.createAccount_no_call lib balance s h
  | makeContribution => exact App.makeContribution_no_call lib balance s h
  | selectStrategy strategyId => exact App.selectStrategy_no_call lib balance strategyId s h
  | calculateReturns => exact App.calculateReturns_no_call lib balance s h
  | initiateRetirement => exact App.initiateRetirement_no_call lib balance s h
  | withdrawFunds amount => exact App.withdrawFunds_no_call lib balance amount s h

/-- Whatever the handler, what it does when its tests pass and its call, or
the wait on the transaction, rejects. -/
theorem App.Action.run_rejects (lib : Ethers) (balance : String) (a : App.Action)
    (s : App.State) (c : Contract) (f : Method Tx) (args : List JSVal) (e : JSVal)
    (hc : s.contract = some c) (hf : a.member c = some f)
    (hargs : a.callArgs lib s = some args)
    (hrej : f args = .error e ∨ ∃ tx, f args = .ok tx ∧ tx.wait = .error e) :
    App.Rejected (a.run lib balance s) a.failure a.method args := by
  cases a with
  | createAccount => exact App.createAccount_rejects lib balance s c f args e hc hf hargs hrej
  | makeContribution =>
    exact App.makeContribution_rejects lib balance s c f args e hc hf hargs hrej
  | selectStrategy strategyId =>
    exact App.selectStrategy_rejects lib balance strategyId s c f args e hc hf hargs hrej
  | calculateReturns =>
    exact App.calculateReturns_rejects lib balance s c f args e hc hf hargs hrej
  | initiateRetirement =>
    exact App.initiateRetirement_rejects lib balance s c f args e hc hf hargs hrej
  | withdrawFunds amount =>
    exact App.withdrawFunds_rejects lib balance amount s c f args e hc hf hargs hrej

/-- C9: for each of the six action handlers of `App.js`, run against a
contract-like object that defines its contract method: the handler calls that
method exactly when none of its tests returns early (it makes no contract call
otherwise), with the arguments `callArgs`; and when that call, or the wait on
the transaction it resolved to, rejects with any value, the handler completes
without throwing, the message it leaves is its fixed failure string, and the
contract method was invoked exactly once, with no other contract call. -/
theorem app_handler_rejection (lib : Ethers) (balance : String) (a : App.Action)
    (s : App.State) (c : Contract) (f : Method Tx)
    (hc : s.contract = some c) (hf : a.member c = some f) :
    (a.callArgs lib s = none → (a.run lib balance s).trace.filter Event.isCall = []) ∧
    ∀ args, a.callArgs lib s = some args →
      ∀ e, (f args = .error e ∨ ∃ tx, f args = .ok tx ∧ tx.wait = .error e) →
        (a.run lib balance s).threw = none ∧
        (a.run lib balance s).state.message = .lit a.failure ∧
        (a.run lib balance s).trace.filter Event.isCall = [.call a.method args] :=
  ⟨App.Action.run_no_call lib balance a s,
    fun args hargs e hrej => App.Action.run_rejects lib balance a s c f args e hc hf hargs hrej⟩

/-- Witness (C9): `initiateRetirement` against a contract whose
`initiateRetirement` rejects with the string "boom"; `createAccount` with the
age "65" against a contract whose transactions revert at the wait; and
`withdrawFunds("5")` for a retired account, against a contract whose `withdraw`
rejects. -/
theorem app_handler_rejection_witness :
    ((App.initiateRetirement "0.00"
        { App.State.initial with contract := some (rejectingContract (.str "boom")) }).threw
        = none ∧
      (App.initiateRetirement "0.00"
        { App.State.initial with
          contract := some (rejectingContract (.str "boom")) }).state.message
        = .lit "Failed to initiate retirement ❌" ∧
      (App.initiateRetirement "0.00"
        { App.State.initial with
          contract := some (rejectingContract (.str "boom")) }).trace.filter Event.isCall
        = [.call "initiateRetirement" []]) ∧
    ((App.createAccount "0.00"
        { App.State.initial with
          contract := some (revertingContract (.str "reverted"))
          retirementAge := "65" }).threw = none ∧
      (App.createAccount "0.00"
        { App.State.initial with
          contract := some (revertingContract (.str "reverted"))
          retirementAge := "65" }).state.message
        = .lit "Failed to create account ❌" ∧
      (App.createAccount "0.00"
        { App.State.initial with
          contract := some (revertingContract (.str "reverted"))
          retirementAge := "65" }).trace.filter Event.isCall
        = [.call "createPensionAccount" [.num (Num.ofInt 65)]]) ∧
    ((App.withdrawFunds sampleEthers "0.00" "5"
        { App.State.initial with
          contract := some (rejectingWithdraw (.str "boom"))
          accountInfo := some ⟨Num.ofInt 65, Num.ofInt 0, true, Num.ofInt 0⟩ }).threw = none ∧
      (App.withdrawFunds sampleEthers "0.00" "5"
        { App.State.initial with
          contract := some (rejectingWithdraw (.str "boom"))
          accountInfo := some ⟨Num.ofInt 65, Num.ofInt 0, true, Num.ofInt 0⟩ }).state.message
        = .lit "Failed to process withdrawal ❌" ∧
      (App.withdrawFunds sampleEthers "0.00" "5"
        { App.State.initial with
          contract := some (rejectingWithdraw (.str "boom"))
          accountInfo := some ⟨Num.ofInt 65, Num.ofInt 0, true, Num.ofInt 0⟩ }).trace.filter
          Event.isCall
        = [.call "withdraw" [.num (Num.ofInt 5), .obj [("value", .bigint 1000000000000000)]]]) :=
  ⟨(app_handler_rejection sampleEthers "0.00" .initiateRetirement
      { App.State.initial with contract := some (rejectingContract (.str "boom")) }
      (rejectingContract (.str "boom")) (fun _ => .error (.str "boom")) rfl rfl).2
      [] rfl (.str "boom") (Or.inl rfl),
    (app_handler_rejection sampleEthers "0.00" .createAccount
      { App.State.initial with
        contract := some (revertingContract (.str "reverted"))
        retirementAge := "65" }
      (revertingContract (.str "reverted")) (fun _ => .ok ⟨.error (.str "reverted")⟩) rfl rfl).2
      [.num (Num.ofInt 65)] rfl (.str "reverted") (Or.inr ⟨⟨.error (.str "reverted")⟩, rfl, rfl⟩),
    (app_handler_rejection sampleEthers "0.00" (.withdrawFunds "5")
      { App.State.initial with
        contract := some (rejectingWithdraw (.str "boom"))
        accountInfo := some ⟨Num.ofInt 65, Num.ofInt 0, true, Num.ofInt 0⟩ }
      (rejectingWithdraw (.str "boom")) (fun _ => .error (.str "boom")) rfl rfl).2
      [.num (Num.ofInt 5), .obj [("value", .bigint 1000000000000000)]] rfl (.str "boom")
      (Or.inl rfl)⟩

/-- The `catch` block of `handleWithdrawal` finds a toast for every error
object whose code is `ACTION_REJECTED` or whose message is a string. -/
theorem Retirement.errorToast_ok (e : JSVal)
    (herr : e.getProp "code" = .ok (.str "ACTION_REJECTED") ∨
      ∃ m, e.getProp "message" = .ok (.str m)) :
    ∃ text, Retirement.errorToast e = .ok text := by
  rcases herr with h | ⟨m, h⟩
  · exact ⟨"Transaction rejected by user", by simp [Retirement.errorToast, h, JSVal.isStr]⟩
  · cases e <;> simp [JSVal.getProp] at h
    rename_i props
    unfold Retirement.errorToast
    simp only [JSVal.getProp, h, includes]
    split
    · exact ⟨_, rfl⟩
    · cases includesChars "Must be retired".data m.data
      · cases includesChars "insufficient funds".data m.data <;> exact ⟨_, rfl⟩
      · exact ⟨_, rfl⟩

/-- What `caught` leaves when the `catch` block finds a toast. -/
theorem Retirement.caught_ok (s : Retirement.State) (t : List Event) (e : JSVal) (text : String)
    (h : Retirement.errorToast e = .ok text) :
    Retirement.caught s t e
      = ⟨{ s with isProcessing := false },
          t ++ [.consoleError "Error processing withdrawal:" e, .toastDismiss] ++ [.toastError text],
          none⟩ := by
  simp [Retirement.caught, h]

/-- The `finally` block: `caught` always ends with `isProcessing = false`. -/
theorem Retirement.caught_isProcessing (s : Retirement.State) (t : List Event) (e : JSVal) :
    (Retirement.caught s t e).state.isProcessing = false := by
  unfold Retirement.caught
  split <;> rfl

/-- C10 (evaluation of the code): when `contract.withdraw` rejects with the
plain string "insufficient funds", the `catch` block of `handleWithdrawal`
reads `error.message`, which is `undefined`, and the call of `includes` on it
raises a `TypeError`: the handler throws that error after `toast.dismiss()` and
shows no error toast (the `finally` block still resets `isProcessing`).  The
same happens when the rejection is an object with a `code` but no `message`.
The handler `withdrawFunds` of `App.js`, given the same rejection, completes
with its failure message. -/
theorem handleWithdrawal_throws_on_string_rejection :
    (Retirement.handleWithdrawal sampleEthers
        ⟨"5", false, some (rejectingWithdraw (.str "insufficient funds"))⟩).threw
      = some (JSVal.typeError "Cannot read properties of undefined (reading includes)") ∧
    (Retirement.handleWithdrawal sampleEthers
        ⟨"5", false, some (rejectingWithdraw (.str "insufficient funds"))⟩).trace
      = [.toastLoading "Processing encrypted withdrawal...",
          .toastLoading "Sending withdrawal transaction to blockchain...",
          .call "withdraw" [.num (Num.ofInt 5), .obj [("value", .bigint 1000000000000000)]],
          .consoleError "Error processing withdrawal:" (.str "insufficient funds"),
          .toastDismiss] ∧
    (Retirement.handleWithdrawal sampleEthers
        ⟨"5", false, some (rejectingWithdraw (.str "insufficient funds"))⟩).trace.filter
        Event.isToastError = [] ∧
    (Retirement.handleWithdrawal sampleEthers
        ⟨"5", false, some (rejectingWithdraw (.str "insufficient funds"))⟩).state.isProcessing
      = false ∧
    (Retirement.handleWithdrawal sampleEthers
        ⟨"5", false, some (rejectingWithdraw (.obj [("code", .num (Num.ofInt (-32000)))]))⟩).threw
      = some (JSVal.typeError "Cannot read properties of undefined (reading includes)") ∧
    (App.withdrawFunds sampleEthers "0.00" "5"
        { App.State.initial with
          contract := some (rejectingWithdraw (.str "insufficient funds"))
          accountInfo := some ⟨Num.ofInt 65, Num.ofInt 0, true, Num.ofInt 0⟩ }).threw = none ∧
    (App.withdrawFunds sampleEthers "0.00" "5"
        { App.State.initial with
          contract := some (rejectingWithdraw (.str "insufficient funds"))
          accountInfo := some ⟨Num.ofInt 65, Num.ofInt 0, true, Num.ofInt 0⟩ }).state.message
      = .lit "Failed to process withdrawal ❌" := by
  refine ⟨rfl, rfl, rfl, rfl, rfl, rfl, rfl⟩

/-- C11: each action of the context (createPensionAccount, contribute,
selectInvestmentOption, startRetirement, withdraw) calls the `write` of its
contract function exactly once, with the object whose `args` are its own
arguments in order (with nothing for `startRetirement`); if that write
rejects, the action rejects with the same value, and if it resolves the action
resolves. -/
theorem context_action_relays_once (h : PensionContext.Hooks) (a : PensionContext.Action)
    (s : PensionContext.State) :
    (a.run h s).trace.filter Event.isWrite = [.write a.functionName a.expectedCall] ∧
    (∀ e, a.write h a.expectedCall = .error e → (a.run h s).threw = some e) ∧
    (∀ u, a.write h a.expectedCall = .ok u → (a.run h s).threw = none) := by
  cases a <;>
    simp only [PensionContext.Action.run, PensionContext.Action.write,
      PensionContext.Action.functionName, PensionContext.Action.expectedCall,
      PensionContext.Action.arguments, PensionContext.createPensionAccount,
      PensionContext.contribute, PensionContext.selectInvestmentOption,
      PensionContext.startRetirement, PensionContext.withdraw, PensionContext.relay] <;>
    split <;> rename_i hw <;> simp [hw, List.filter, Event.isWrite]

/-- C12: `usePension` throws the error "usePension must be used within a
PensionProvider" exactly when the context value is `undefined` (no enclosing
provider); under a provider it returns the `value` object of the provider as it
is and does not throw. -/
theorem usePension_throws_iff_no_provider (context : Option PensionContext.Value)
    (h : PensionContext.Hooks) (s : PensionContext.State) :
    ((∃ e, PensionContext.usePension context = .error e) ↔ context = none) ∧
    PensionContext.usePension none
      = .error (JSVal.error "usePension must be used within a PensionProvider") ∧
    PensionContext.usePension (some (PensionContext.value h s))
      = .ok (PensionContext.value h s) := by
  refine ⟨?_, rfl, rfl⟩
  cases context <;> simp [PensionContext.usePension]

/-- The validation of `handleCreateAccount`: neither `if` returns early. -/
theorem Profile.trace_of_valid (createPensionAccount : Method Unit) (s : Profile.State)
    (hv : Profile.passesValidation s = true) :
    (Profile.handleCreateAccount createPensionAccount s).trace.filter Event.isAction
      = [.action "createPensionAccount"
          [.num s.retirementAge, .bytes (List.replicate 32 0)]] := by
  unfold Profile.passesValidation at hv
  simp only [Bool.and_eq_true, Bool.not_eq_true', Bool.or_eq_false_iff] at hv
  obtain ⟨⟨h1, h2⟩, h3⟩ := hv
  unfold Profile.handleCreateAccount
  simp only [h1, h2, h3, Bool.or_self, Bool.false_eq_true, if_false]
  split <;> simp [List.filter, Event.isAction]

/-- C15: whenever the two ages pass the validation of `handleCreateAccount`,
the handler calls `createPensionAccount` once with the retirement age and a
buffer of exactly 32 bytes, all zero; two runs whose states differ only in the
current age (both passing validation) pass identical arguments. -/
theorem profile_encryptedAge_is_zero_buffer (createPensionAccount : Method Unit)
    (s s2 : Profile.State) (hv : Profile.passesValidation s = true)
    (hv2 : Profile.passesValidation s2 = true) (hsame : s2.retirementAge = s.retirementAge) :
    (∃ zeros : List Nat, zeros.length = 32 ∧ (∀ b ∈ zeros, b = 0) ∧
      (Profile.handleCreateAccount createPensionAccount s).trace.filter Event.isAction
        = [.action "createPensionAccount" [.num s.retirementAge, .bytes zeros]]) ∧
    (Profile.handleCreateAccount createPensionAccount s2).trace.filter Event.isAction
      = (Profile.handleCreateAccount createPensionAccount s).trace.filter Event.isAction := by
  refine ⟨⟨List.replicate 32 0, by simp, ?_, Profile.trace_of_valid _ _ hv⟩, ?_⟩
  · intro b hb
    exact List.eq_of_mem_replicate hb
  · rw [Profile.trace_of_valid _ _ hv, Profile.trace_of_valid _ _ hv2, hsame]

/-- Witness (C15): retirement age 65 with current ages 30 and 40. -/
theorem profile_encryptedAge_is_zero_buffer_witness :
    (∃ zeros : List Nat, zeros.length = 32 ∧ (∀ b ∈ zeros, b = 0) ∧
      (Profile.handleCreateAccount (fun _ => .ok ())
          ⟨Num.ofInt 65, Num.ofInt 30, false⟩).trace.filter Event.isAction
        = [.action "createPensionAccount" [.num (Num.ofInt 65), .bytes zeros]]) ∧
    (Profile.handleCreateAccount (fun _ => .ok ())
        ⟨Num.ofInt 65, Num.ofInt 40, false⟩).trace.filter Event.isAction
      = (Profile.handleCreateAccount (fun _ => .ok ())
          ⟨Num.ofInt 65, Num.ofInt 30, false⟩).trace.filter Event.isAction :=
  profile_encryptedAge_is_zero_buffer (fun _ => .ok ()) ⟨Num.ofInt 65, Num.ofInt 30, false⟩
    ⟨Num.ofInt 65, Num.ofInt 40, false⟩ (by decide) (by decide) rfl

/-- C17: when the provider answers `eth_accounts` with a value `accounts`
whose first element can be read, the signer that the fallback `getSigner`
resolves to has that first element as `address`, and its `sendTransaction(tx)`
makes exactly one provider request, with method `eth_sendTransaction` and
params `[tx]`, and settles as that request does. -/
theorem fallback_signer_relays (provider : Provider) (args : List JSVal)
    (accounts a : JSVal) (haccounts : provider.request "eth_accounts" none = .ok accounts)
    (hfirst : accounts.first = .ok a) :
    ∃ signer, (Fallback.getSigner provider args).2 = .ok signer ∧
      signer.address = a ∧
      ∀ tx rest, signer.sendTransaction (tx :: rest)
        = ([.request "eth_sendTransaction" (some (.arr [tx]))],
            provider.request "eth_sendTransaction" (some (.arr [tx]))) := by
  unfold Fallback.getSigner
  simp only [haccounts, hfirst]
  exact ⟨_, rfl, rfl, fun tx rest => rfl⟩

/-- Witness (C17): the wallet with the single account `0xabc`. -/
theorem fallback_signer_relays_witness :
    ∃ signer, (Fallback.getSigner (sampleProvider "0xaa36a7" (.ok .null)) []).2 = .ok signer ∧
      signer.address = .str "0xabc" ∧
      ∀ tx rest, signer.sendTransaction (tx :: rest)
        = ([.request "eth_sendTransaction" (some (.arr [tx]))],
            (sampleProvider "0xaa36a7" (.ok .null)).request "eth_sendTransaction"
              (some (.arr [tx]))) :=
  fallback_signer_relays (sampleProvider "0xaa36a7" (.ok .null)) [] (.arr [.str "0xabc"])
    (.str "0xabc") rfl rfl

/-- C16 (evaluation of the code): while `loading` is true, with a connected
account that has a snapshot, the three strategy cards are still enabled (their
`onClick` sits on a `div`, only the button inside has `disabled`), every other
clickable element is disabled, and a click on a card runs `selectStrategy`,
which calls the contract. -/
theorem strategy_cards_enabled_while_loading :
    (App.clickables
        { App.State.initial with
          account := .str "0xabc"
          contract := some resolvingContract
          loading := true
          accountInfo := some ⟨Num.ofInt 65, Num.ofInt 0, false, Num.ofInt 0⟩ }).map
        (fun controls => controls.filter (fun c => !c.disabled))
      = .ok
        [⟨"div", .action (.selectStrategy (Num.ofInt 0)), false, "Conservative"⟩,
         ⟨"div", .action (.selectStrategy (Num.ofInt 1)), false, "Balanced"⟩,
         ⟨"div", .action (.selectStrategy (Num.ofInt 2)), false, "Growth"⟩] ∧
    ((App.Action.selectStrategy (Num.ofInt 1)).run sampleEthers "0.00"
        { App.State.initial with
          account := .str "0xabc"
          contract := some resolvingContract
          loading := true
          accountInfo := some ⟨Num.ofInt 65, Num.ofInt 0, false, Num.ofInt 0⟩ }).trace
      = [.call "selectInvestmentOption" [.num (Num.ofInt 1)], .wait "selectInvestmentOption",
          .call "getAccountInfo" []] := by
  refine ⟨rfl, rfl⟩

/-- C18 (evaluation of the code): when `getAccountInfo` resolves to the tuple
of the fallback mock, `[0, 0, false, 0]`, `loadAccountInfo` stores a snapshot
object (which is truthy), so for a connected account the dashboard is rendered
and the section "Create Your Pension Account" is not. -/
theorem mock_tuple_renders_dashboard :
    (App.loadAccountInfo "0.00" (some Fallback.sampleContract)
        { App.State.initial with
          account := .str "0xabc", contract := some Fallback.sampleContract }).1.accountInfo
      = some ⟨Num.ofInt 0, Num.ofInt 0, false, Num.ofInt 0⟩ ∧
    App.sections
        (App.loadAccountInfo "0.00" (some Fallback.sampleContract)
          { App.State.initial with
            account := .str "0xabc", contract := some Fallback.sampleContract }).1
      = .ok [.dashboard, .investmentStrategies] ∧
    App.sections
        { App.State.initial with
          account := .str "0xabc", contract := some Fallback.sampleContract }
      = .ok [.createAccount] := by
  refine ⟨rfl, rfl, rfl⟩

/-- C19 (evaluation of the code): with a wallet on chain `0x1` that rejects
the request to switch chains with code 4001, `connectWallet` swallows the
rejection, makes no further network request, stores the account and the
contract and sets the message "Connected to Sepolia! ...". -/
theorem connectWallet_connects_on_wrong_chain :
    (App.connectWallet
        (some (sampleProvider "0x1" (.error (.obj [("code", .num (Num.ofInt 4001))]))))
        sampleEthers "0.00" App.State.initial).trace
      = [.request "eth_requestAccounts" none, .request "eth_chainId" none,
          .request "wallet_switchEthereumChain"
            (some (.arr [.obj [("chainId", .str "0xaa36a7")]])),
          .getSigner, .newContract App.CONTRACT_ADDRESS, .call "getAccountInfo" []] ∧
    (App.connectWallet
        (some (sampleProvider "0x1" (.error (.obj [("code", .num (Num.ofInt 4001))]))))
        sampleEthers "0.00" App.State.initial).state.account = .str "0xabc" ∧
    (App.connectWallet
        (some (sampleProvider "0x1" (.error (.obj [("code", .num (Num.ofInt 4001))]))))
        sampleEthers "0.00" App.State.initial).state.contract.isSome = true ∧
    (App.connectWallet
        (some (sampleProvider "0x1" (.error (.obj [("code", .num (Num.ofInt 4001))]))))
        sampleEthers "0.00" App.State.initial).state.message
      = .lit "Connected to Sepolia! Ready for encrypted pension management 🏦" := by
  refine ⟨rfl, rfl, rfl, rfl⟩

/-- C20 (evaluation of the code): with the amount "1.5" the success message
names 1.5 while the contract call received `Math.floor(1.5) = 1`, in
`App.makeContribution`, in `App.withdrawFunds` and in
`Retirement.handleWithdrawal` alike. -/
theorem success_message_names_unfloored_amount :
    parseFloat "1.5" = .fin 3 1 ∧
    (App.makeContribution sampleEthers "0.00"
        { App.State.initial with
          contract := some resolvingContract, contributionAmount := "1.5" }).trace
      = [.call "makeContribution"
            [.num (Num.ofInt 1), .obj [("value", .bigint 1000000000000000)]],
          .wait "makeContribution", .call "getAccountInfo" []] ∧
    (App.makeContribution sampleEthers "0.00"
        { App.State.initial with
          contract := some resolvingContract, contributionAmount := "1.5" }).state.message
      = .tmpl "Contribution of " (.fin 3 1) " ETH made successfully! 💰" ∧
    (App.withdrawFunds sampleEthers "0.00" "1.5"
        { App.State.initial with
          contract := some resolvingContract
          accountInfo := some ⟨Num.ofInt 65, Num.ofInt 0, true, Num.ofInt 0⟩ }).trace
      = [.call "withdraw" [.num (Num.ofInt 1), .obj [("value", .bigint 1000000000000000)]],
          .wait "withdraw", .call "getAccountInfo" []] ∧
    (App.withdrawFunds sampleEthers "0.00" "1.5"
        { App.State.initial with
          contract := some resolvingContract
          accountInfo := some ⟨Num.ofInt 65, Num.ofInt 0, true, Num.ofInt 0⟩ }).state.message
      = .tmpl "Withdrawal of " (.fin 3 1) " ETH processed successfully! 💰" ∧
    (Retirement.handleWithdrawal sampleEthers ⟨"1.5", false, some resolvingContract⟩).trace
      = [.toastLoading "Processing encrypted withdrawal...",
          .toastLoading "Sending withdrawal transaction to blockchain...",
          .call "withdraw" [.num (Num.ofInt 1), .obj [("value", .bigint 1000000000000000)]],
          .toastLoading "Transaction sent! Waiting for blockchain confirmation...",
          .wait "withdraw", .toastDismiss,
          .toastSuccess "Withdrawal of 1.5 ETH processed successfully! 💰",
          .call "once" [.str "WithdrawalMade"]] := by
  refine ⟨by decide, rfl, rfl, rfl, rfl, rfl⟩

/-- Every strategy id that a click can pass to `selectStrategy` is listed in
`strategies`. -/
theorem App.clickables_strategyListed (s : App.State) (controls : List App.Control)
    (ctl : App.Control) (a : App.Action)
    (hrender : App.clickables s = .ok controls) (hmem : ctl ∈ controls)
    (ha : ctl.onClick = .action a) :
    a.strategyListed = true := by
  cases a with
  | selectStrategy strategyId =>
    unfold App.clickables at hrender
    split at hrender
    · simp at hrender
    simp only [Except.ok.injEq] at hrender
    subst hrender
    simp only [List.mem_append] at hmem
    rcases hmem with (h | h) | h
    · split at h <;> simp at h
      subst h
      simp at ha
    · split at h <;> simp at h
      subst h
      simp at ha
    · split at h
      · simp at h
      · split at h
        · simp only [List.mem_append, List.mem_map, List.mem_singleton] at h
          rcases h with ((h | h) | h) | ⟨st, hst, h⟩
          · subst h; simp at ha
          · split at h <;> simp at h
            subst h; simp at ha
          · split at h <;> simp at h <;> subst h <;> simp at ha
          · subst h
            simp only [App.strategyCard, App.Handler.action.injEq,
              App.Action.selectStrategy.injEq] at ha
            subst ha
            simp only [App.strategies, List.mem_cons, List.mem_singleton, List.not_mem_nil,
              or_false] at hst
            rcases hst with h | h | h <;> subst h <;> decide
        · simp at h
  | _ => rfl

/-- C14 (the claim as stated fails): `selectStrategy(5)`, with an id that is
not the id of an entry of `strategies`, against a contract on which the call
and the wait resolve: after the wait the read of `strategy.name` throws, the
handler ends in its `catch` block and `getAccountInfo` is not called. -/
theorem selectStrategy_unlisted_counterexample :
    (App.selectStrategy "0.00" (Num.ofInt 5)
        { App.State.initial with contract := some resolvingContract }).trace
      = [.call "selectInvestmentOption" [.num (Num.ofInt 5)], .wait "selectInvestmentOption",
          .consoleError "Strategy selection failed:"
            (JSVal.typeError "Cannot read properties of undefined (reading name)")] ∧
    (App.selectStrategy "0.00" (Num.ofInt 5)
        { App.State.initial with contract := some resolvingContract }).trace.filter
        Event.isCallOrWait
      = [.call "selectInvestmentOption" [.num (Num.ofInt 5)], .wait "selectInvestmentOption"] ∧
    ¬ App.Refetched
        (App.selectStrategy "0.00" (Num.ofInt 5)
          { App.State.initial with contract := some resolvingContract })
        "selectInvestmentOption" [.num (Num.ofInt 5)] := by
  refine ⟨rfl, rfl, fun h => ?_⟩
  have hlen := congrArg List.length h
  have hrun : ((App.selectStrategy "0.00" (Num.ofInt 5)
      { App.State.initial with contract := some resolvingContract }).trace.filter
      Event.isCallOrWait).length = 2 := rfl
  rw [hrun] at hlen
  simp at hlen

/-- C14 (amended): for each of the six action handlers of `App.js`, run against
a contract-like object that defines its contract method and `getAccountInfo`:
the handler makes no contract call when one of its tests returns early; when
its call and the wait on the transaction resolve, the contract calls and waits
of the handler are the call, the wait, and then exactly one call of
`getAccountInfo`, except for `selectStrategy` with an id that is not the id of
an entry of `strategies`, which ends after the wait without a call of
`getAccountInfo`; and when the call or the wait rejects, the handler does not
call `getAccountInfo`. -/
theorem app_handler_refetches_after_success (lib : Ethers) (balance : String)
    (a : App.Action) (s : App.State) (c : Contract) (f : Method Tx)
    (g : Method AccountTuple)
    (hc : s.contract = some c) (hf : a.member c = some f) (hg : c.getAccountInfo = some g) :
    (a.callArgs lib s = none → (a.run lib balance s).trace.filter Event.isCall = []) ∧
    ∀ args, a.callArgs lib s = some args →
      (∀ tx v, f args = .ok tx → tx.wait = .ok v →
        (a.run lib balance s).trace.filter Event.isCallOrWait
          = [.call a.method args, .wait a.method] ++
            (if a.strategyListed then [.call "getAccountInfo" []] else [])) ∧
      (∀ e, (f args = .error e ∨ ∃ tx, f args = .ok tx ∧ tx.wait = .error e) →
        ∀ gargs, Event.call "getAccountInfo" gargs ∉ (a.run lib balance s).trace) := by
  refine ⟨App.Action.run_no_call lib balance a s, fun args hargs => ⟨?_, ?_⟩⟩
  · intro tx v hok hw
    cases a with
    | createAccount =>
      exact App.createAccount_refetches lib balance s c f g args tx v hc hf hg hargs hok hw
    | makeContribution =>
      exact App.makeContribution_refetches lib balance s c f g args tx v hc hf hg hargs hok hw
    | selectStrategy strategyId =>
      exact App.selectStrategy_refetches lib balance strategyId s c f g args tx v hc hf hg
        hargs hok hw
    | calculateReturns =>
      exact App.calculateReturns_refetches lib balance s c f g args tx v hc hf hg hargs hok hw
    | initiateRetirement =>
      exact App.initiateRetirement_refetches lib balance s c f g args tx v hc hf hg hargs hok hw
    | withdrawFunds amount =>
      exact App.withdrawFunds_refetches lib balance amount s c f g args tx v hc hf hg hargs
        hok hw
  · intro e hrej gargs hmem
    have hR := (App.Action.run_rejects lib balance a s c f args e hc hf hargs hrej).2.2
    have hin : Event.call "getAccountInfo" gargs
        ∈ (a.run lib balance s).trace.filter Event.isCall :=
      List.mem_filter.mpr ⟨hmem, rfl⟩
    rw [hR] at hin
    simp only [List.mem_singleton, Event.call.injEq] at hin
    cases a <;> simp [App.Action.method] at hin

/-- Witness (C14): `initiateRetirement`, and `selectStrategy(1)`, against a
contract on which every call resolves. -/
theorem app_handler_refetches_after_success_witness :
    (App.initiateRetirement "0.00"
        { App.State.initial with contract := some resolvingContract }).trace.filter
        Event.isCallOrWait
      = [.call "initiateRetirement" [], .wait "initiateRetirement", .call "getAccountInfo" []] ∧
    (App.selectStrategy "0.00" (Num.ofInt 1)
        { App.State.initial with contract := some resolvingContract }).trace.filter
        Event.isCallOrWait
      = [.call "selectInvestmentOption" [.num (Num.ofInt 1)], .wait "selectInvestmentOption",
          .call "getAccountInfo" []] :=
  ⟨((app_handler_refetches_after_success sampleEthers "0.00" .initiateRetirement
      { App.State.initial with contract := some resolvingContract } resolvingContract
      (fun _ => .ok ⟨.ok (.obj [("status", .num (Num.ofInt 1))])⟩)
      (fun _ => .ok ⟨.bigint 65, .bigint 0, false, .bigint 0⟩) rfl rfl rfl).2 [] rfl).1
      ⟨.ok (.obj [("status", .num (Num.ofInt 1))])⟩ (.obj [("status", .num (Num.ofInt 1))])
      rfl rfl,
    ((app_handler_refetches_after_success sampleEthers "0.00" (.selectStrategy (Num.ofInt 1))
      { App.State.initial with contract := some resolvingContract } resolvingContract
      (fun _ => .ok ⟨.ok (.obj [("status", .num (Num.ofInt 1))])⟩)
      (fun _ => .ok ⟨.bigint 65, .bigint 0, false, .bigint 0⟩) rfl rfl rfl).2
      [.num (Num.ofInt 1)] rfl).1
      ⟨.ok (.obj [("status", .num (Num.ofInt 1))])⟩ (.obj [("status", .num (Num.ofInt 1))])
      rfl rfl⟩

/-- C13 (the claim as stated fails): the fallback `getSigner` sends the
request `eth_accounts`, and `connectWallet`, when the wallet rejects the switch
of chain with code 4902, sends the request `wallet_addEthereumChain`; neither
name is among the four listed. -/
theorem provider_request_names_counterexample :
    (Fallback.getSigner (sampleProvider "0xaa36a7" (.ok .null)) []).1
      = [.request "eth_accounts" none] ∧
    (Fallback.getSigner (sampleProvider "0xaa36a7" (.ok .null)) []).1.all
        (Fallback.Effect.requestsOnly listedProviderMethods) = false ∧
    (App.connectWallet
        (some (sampleProvider "0x1" (.error (.obj [("code", .num (Num.ofInt 4902))]))))
        sampleEthers "0.00" App.State.initial).trace.filter Event.isRequest
      = [.request "eth_requestAccounts" none, .request "eth_chainId" none,
          .request "wallet_switchEthereumChain"
            (some (.arr [.obj [("chainId", .str "0xaa36a7")]])),
          .request "wallet_addEthereumChain" (some App.sepoliaChain)] ∧
    (App.connectWallet
        (some (sampleProvider "0x1" (.error (.obj [("code", .num (Num.ofInt 4902))]))))
        sampleEthers "0.00" App.State.initial).trace.all
        (Event.requestsOnly listedProviderMethods) = false := by
  refine ⟨rfl, rfl, rfl, rfl⟩

/-- The requests of the network check of `connectWallet`, case by case: none
on Sepolia; else the request to switch, followed by the request to add the
chain exactly when the switch was rejected with an error whose `code` is
4902. -/
theorem App.switchToSepolia_trace (eth : Provider) (chainId : JSVal) :
    (chainId.isStr "0xaa36a7" = true ∧ (App.switchToSepolia eth chainId).1 = []) ∨
    (chainId.isStr "0xaa36a7" = false ∧
      (¬ ∃ switchError,
          eth.request "wallet_switchEthereumChain"
              (some (.arr [.obj [("chainId", .str "0xaa36a7")]])) = .error switchError ∧
            switchError.getProp "code" = .ok (.num (Num.ofInt 4902))) ∧
      (App.switchToSepolia eth chainId).1
        = [.request "wallet_switchEthereumChain"
            (some (.arr [.obj [("chainId", .str "0xaa36a7")]]))]) ∨
    (chainId.isStr "0xaa36a7" = false ∧
      (∃ switchError,
          eth.request "wallet_switchEthereumChain"
              (some (.arr [.obj [("chainId", .str "0xaa36a7")]])) = .error switchError ∧
            switchError.getProp "code" = .ok (.num (Num.ofInt 4902))) ∧
      (App.switchToSepolia eth chainId).1
        = [.request "wallet_switchEthereumChain"
            (some (.arr [.obj [("chainId", .str "0xaa36a7")]])),
           .request "wallet_addEthereumChain" (some App.sepoliaChain)]) := by
  by_cases h : chainId.isStr "0xaa36a7" = true
  · left
    simp [App.switchToSepolia, h]
  · right
    have hf : chainId.isStr "0xaa36a7" = false := by simpa using h
    cases hs : eth.request "wallet_switchEthereumChain"
        (some (.arr [.obj [("chainId", .str "0xaa36a7")]])) with
    | ok r =>
      refine Or.inl ⟨hf, ?_, ?_⟩
      · rintro ⟨se, hse, -⟩
        simp at hse
      · simp [App.switchToSepolia, hf, hs]
    | error switchError =>
      cases hcode : switchError.getProp "code" with
      | error e =>
        refine Or.inl ⟨hf, ?_, ?_⟩
        · rintro ⟨se, hse, hc4⟩
          simp only [Except.error.injEq] at hse
          subst hse
          rw [hcode] at hc4
          simp at hc4
        · simp [App.switchToSepolia, hf, hs, hcode]
      | ok code =>
        by_cases h4 : code.isNum (Num.ofInt 4902) = true
        · have hcode4 : code = .num (Num.ofInt 4902) := by
            cases code <;> simp [JSVal.isNum] at h4
            simp [h4]
          subst hcode4
          refine Or.inr ⟨hf, ⟨switchError, rfl, hcode⟩, ?_⟩
          cases ha : eth.request "wallet_addEthereumChain" (some App.sepoliaChain) <;>
            simp [App.switchToSepolia, hf, hs, hcode, h4, ha]
        · refine Or.inl ⟨hf, ?_, ?_⟩
          · rintro ⟨se, hse, hc4⟩
            simp only [Except.error.injEq] at hse
            subst hse
            rw [hcode] at hc4
            simp only [Except.ok.injEq] at hc4
            subst hc4
            simp [JSVal.isNum] at h4
          · simp [App.switchToSepolia, hf, hs, hcode, h4]

/-- The network check of `connectWallet` does nothing but provider
requests. -/
theorem App.switchToSepolia_filter (eth : Provider) (chainId : JSVal) :
    (App.switchToSepolia eth chainId).1.filter Event.isRequest
      = (App.switchToSepolia eth chainId).1 := by
  rcases App.switchToSepolia_trace eth chainId with h | h | h
  · rw [h.2]; rfl
  · rw [h.2.2]; rfl
  · rw [h.2.2]; rfl

/-- The function `loadAccountInfo` sends no request to the provider. -/
theorem App.loadAccountInfo_no_request (balance : String) (ci : Option Contract)
    (s : App.State) :
    (App.loadAccountInfo balance ci s).2.filter Event.isRequest = [] := by
  unfold App.loadAccountInfo
  cases ci with
  | none => simp
  | some c =>
    cases hg : c.getAccountInfo with
    | none => simp [invoke, hg, List.filter, Event.isRequest]
    | some g => cases hr : g [] <;> simp [invoke, hg, hr, List.filter, Event.isRequest]

/-- The provider requests of `connectWallet`, in order: `eth_requestAccounts`;
if it is answered, `eth_chainId`; if that is answered too, the requests of the
network check. -/
theorem App.connectWallet_requests (eth : Provider) (lib : Ethers) (balance : String)
    (s : App.State) :
    (App.connectWallet (some eth) lib balance s).trace.filter Event.isRequest
      = match eth.request "eth_requestAccounts" none with
        | .error _ => [.request "eth_requestAccounts" none]
        | .ok _ =>
          match eth.request "eth_chainId" none with
          | .error _ => [.request "eth_requestAccounts" none, .request "eth_chainId" none]
          | .ok chainId =>
            [.request "eth_requestAccounts" none, .request "eth_chainId" none] ++
              (App.switchToSepolia eth chainId).1 := by
  unfold App.connectWallet
  simp only []
  cases h1 : eth.request "eth_requestAccounts" none with
  | error e => simp [App.failed, List.filter, Event.isRequest]
  | ok accounts =>
    cases h2 : eth.request "eth_chainId" none with
    | error e => simp [App.failed, List.filter, Event.isRequest]
    | ok chainId =>
      have hsw := App.switchToSepolia_filter eth chainId
      rcases hsplit : App.switchToSepolia eth chainId with ⟨t, r⟩
      rw [hsplit] at hsw
      simp only at hsw
      cases r with
      | some e => simp [hsplit, App.failed, List.filter_append, hsw, List.filter, Event.isRequest]
      | none =>
        simp only [hsplit]
        cases h3 : lib.getSigner eth with
        | error e => simp [h3, App.failed, List.filter_append, hsw, List.filter, Event.isRequest]
        | ok signer =>
          cases h4 : lib.newContract App.CONTRACT_ADDRESS App.CONTRACT_ABI signer with
          | error e =>
            simp [h3, h4, App.failed, List.filter_append, hsw, List.filter, Event.isRequest]
          | ok contractInstance =>
            cases h5 : accounts.first with
            | error e =>
              simp [h3, h4, h5, App.failed, List.filter_append, hsw, List.filter,
                Event.isRequest]
            | ok a =>
              simp [h3, h4, h5, List.filter_append, hsw, App.loadAccountInfo_no_request,
                List.filter, Event.isRequest]

/-- C13 (amended): every request that `connectWallet` sends to the provider
uses one of the names `eth_requestAccounts`, `eth_chainId`,
`wallet_switchEthereumChain`, `wallet_addEthereumChain`, and it sends
`wallet_addEthereumChain` only after its request `wallet_switchEthereumChain`
was rejected with an error whose `code` is 4902 (its requests are then these
four, in this order); the only request of the fallback `getSigner` is
`eth_accounts`, and every request of the `sendTransaction` of its signer is
`eth_sendTransaction`. -/
theorem provider_request_names (ethereum : Option Provider) (provider : Provider)
    (lib : Ethers) (balance : String) (s : App.State) (args : List JSVal) :
    (App.connectWallet ethereum lib balance s).trace.all
      (Event.requestsOnly ["eth_requestAccounts", "eth_chainId", "wallet_switchEthereumChain",
        "wallet_addEthereumChain"]) = true ∧
    (∀ eth params, ethereum = some eth →
      Event.request "wallet_addEthereumChain" params
          ∈ (App.connectWallet ethereum lib balance s).trace →
      (∃ switchError,
        eth.request "wallet_switchEthereumChain"
            (some (.arr [.obj [("chainId", .str "0xaa36a7")]])) = .error switchError ∧
          switchError.getProp "code" = .ok (.num (Num.ofInt 4902))) ∧
      (App.connectWallet ethereum lib balance s).trace.filter Event.isRequest
        = [.request "eth_requestAccounts" none, .request "eth_chainId" none,
            .request "wallet_switchEthereumChain"
              (some (.arr [.obj [("chainId", .str "0xaa36a7")]])),
            .request "wallet_addEthereumChain" (some App.sepoliaChain)]) ∧
    (Fallback.getSigner provider args).1 = [.request "eth_accounts" none] ∧
    (∀ signer, (Fallback.getSigner provider args).2 = .ok signer → ∀ txArgs,
      (signer.sendTransaction txArgs).1.all
        (Fallback.Effect.requestsOnly ["eth_sendTransaction"]) = true) := by
  refine ⟨?_, ?_, ?_, ?_⟩
  · cases ethereum with
    | none => rfl
    | some eth =>
      have hreq := App.connectWallet_requests eth lib balance s
      have hall : ((App.connectWallet (some eth) lib balance s).trace.filter
          Event.isRequest).all
          (Event.requestsOnly ["eth_requestAccounts", "eth_chainId",
            "wallet_switchEthereumChain", "wallet_addEthereumChain"]) = true := by
        rw [hreq]
        cases h1 : eth.request "eth_requestAccounts" none with
        | error e => rfl
        | ok accounts =>
          cases h2 : eth.request "eth_chainId" none with
          | error e => rfl
          | ok chainId =>
            simp only []
            rcases App.switchToSepolia_trace eth chainId with h | h | h
            · rw [h.2]; rfl
            · rw [h.2.2]; rfl
            · rw [h.2.2]; rfl
      rw [List.all_eq_true] at hall ⊢
      intro ev hev
      cases ev with
      | request m p => exact hall _ (List.mem_filter.mpr ⟨hev, rfl⟩)
      | _ => rfl
  · intro eth params heth hmem
    subst heth
    have hin : Event.request "wallet_addEthereumChain" params
        ∈ (App.connectWallet (some eth) lib balance s).trace.filter Event.isRequest :=
      List.mem_filter.mpr ⟨hmem, rfl⟩
    have hreq := App.connectWallet_requests eth lib balance s
    rw [hreq] at hin ⊢
    cases h1 : eth.request "eth_requestAccounts" none with
    | error e => simp [h1] at hin
    | ok accounts =>
      cases h2 : eth.request "eth_chainId" none with
      | error e => simp [h1, h2] at hin
      | ok chainId =>
        simp only [h1, h2] at hin ⊢
        rcases App.switchToSepolia_trace eth chainId with h | h | h
        · rw [h.2] at hin
          simp at hin
        · rw [h.2.2] at hin
          simp at hin
        · rw [h.2.2]
          exact ⟨h.2.1, rfl⟩
  · unfold Fallback.getSigner
    repeat' split
    all_goals rfl
  · intro signer hs txArgs
    unfold Fallback.getSigner at hs
    split at hs
    · simp at hs
    · split at hs
      · simp at hs
      · simp only [Except.ok.injEq] at hs
        subst hs
        simp [Fallback.Effect.requestsOnly]

/-- Witness (C13): on chain `0x1`, with a wallet that rejects the switch (and
the request to add the chain) with code 4902, the requests of `connectWallet`
are `eth_requestAccounts`, `eth_chainId`, `wallet_switchEthereumChain` and
`wallet_addEthereumChain`, in this order. -/
theorem provider_request_names_witness :
    (App.connectWallet
        (some (sampleProvider "0x1" (.error (.obj [("code", .num (Num.ofInt 4902))]))))
        sampleEthers "0.00" App.State.initial).trace.filter Event.isRequest
      = [.request "eth_requestAccounts" none, .request "eth_chainId" none,
          .request "wallet_switchEthereumChain"
            (some (.arr [.obj [("chainId", .str "0xaa36a7")]])),
          .request "wallet_addEthereumChain" (some App.sepoliaChain)] :=
  ((provider_request_names
    (some (sampleProvider "0x1" (.error (.obj [("code", .num (Num.ofInt 4902))]))))
    (sampleProvider "0x1" (.error (.obj [("code", .num (Num.ofInt 4902))])))
    sampleEthers "0.00" App.State.initial []).2.1
    (sampleProvider "0x1" (.error (.obj [("code", .num (Num.ofInt 4902))])))
    (some App.sepoliaChain) rfl
    (List.Mem.tail _ (List.Mem.tail _ (List.Mem.tail _ (List.Mem.head _))))).2

/-- A Number greater than zero is not `<= 0`. -/
theorem Num.le_zero_of_zero_lt {x : Num} (h : (Num.ofInt 0).lt x = true) :
    x.le (Num.ofInt 0) = false := by
  cases x with
  | nan => rfl
  | inf neg => cases neg <;> simp_all [Num.lt, Num.le, Num.ofInt]
  | fin m e => simp_all [Num.lt, Num.le, Num.ofInt]

/-- Lowest terms of a finite value are not `NaN`. -/
theorem Num.mkFin_ne_nan (m : Int) (e : Nat) : Num.mkFin m e ≠ .nan := by
  induction e generalizing m with
  | zero => simp [Num.mkFin]
  | succ e ih =>
    unfold Num.mkFin
    split
    · exact ih _
    · simp

/-- Rounding a ratio never gives `NaN`. -/
theorem Num.ofRatio_ne_nan (neg : Bool) (n d : Nat) : Num.ofRatio neg n d ≠ .nan := by
  unfold Num.ofRatio
  simp only []
  split_ifs <;> first | exact Num.mkFin_ne_nan _ _ | simp

/-- A digit is neither white space nor a sign. -/
theorem digitValue_some (c : Char) (v : Nat) (h : digitValue 10 c = some v) :
    isStrWhiteSpace c = false ∧ c ≠ '-' ∧ c ≠ '+' := by
  unfold digitValue at h
  simp only [] at h
  split at h
  · rename_i hd
    refine ⟨?_, ?_, ?_⟩
    · simp only [isStrWhiteSpace, Bool.or_eq_false_iff, decide_eq_false_iff_not,
        Bool.and_eq_false_imp, decide_eq_true_eq]
      omega
    · rintro rfl
      revert hd
      decide
    · rintro rfl
      revert hd
      decide
  · simp at h

/-- The value `parseFloat` computes once the sign is read is not `NaN` when
the remaining characters are a number without sign. -/
theorem parseFloat_ne_nan_of_unsigned (s : String) (neg : Bool) (cs : List Char)
    (ht : takeSign (trimStart s.data) = (neg, cs))
    (hv : Contributions.validUnsigned cs = true) : parseFloat s ≠ .nan := by
  unfold Contributions.validUnsigned at hv
  simp only [] at hv
  unfold parseFloat
  simp only [ht]
  split
  · simp
  · split at hv
    · rename_i r hr
      simp only [Bool.and_eq_true, decide_eq_true_eq] at hv
      rw [if_neg (fun hh => hv.1 hh.2)]
      split_ifs <;> exact Num.ofRatio_ne_nan _ _ _
    · rename_i hr
      simp only [Bool.and_eq_true, decide_eq_true_eq] at hv
      rw [if_neg (fun hh => hv.1 hh.1)]
      split_ifs <;> exact Num.ofRatio_ne_nan _ _ _

/-- A number without sign starts with a character that is neither white space
nor a sign. -/
theorem Contributions.validUnsigned_first (c : Char) (rest : List Char)
    (h : Contributions.validUnsigned (c :: rest) = true) :
    isStrWhiteSpace c = false ∧ c ≠ '-' ∧ c ≠ '+' := by
  cases hv : digitValue 10 c with
  | some v => exact digitValue_some c v hv
  | none =>
    unfold Contributions.validUnsigned at h
    simp only [spanDigits, hv] at h
    split at h
    · rename_i r heq
      simp only [List.cons.injEq] at heq
      rw [heq.1]
      exact ⟨by decide, by decide, by decide⟩
    · simp at h

/-- A valid floating-point number of the HTML standard does not parse to
`NaN`. -/
theorem parseFloat_ne_nan_of_valid (s : String)
    (h : Contributions.isValidFloatingPointNumber s = true) : parseFloat s ≠ .nan := by
  unfold Contributions.isValidFloatingPointNumber at h
  split at h
  · rename_i r hd
    refine parseFloat_ne_nan_of_unsigned s true r ?_ h
    rw [hd]
    rfl
  · rename_i hno
    cases hd : s.data with
    | nil =>
      rw [hd] at h
      simp [Contributions.validUnsigned, spanDigits] at h
    | cons c rest =>
      rw [hd] at h
      obtain ⟨hw, hm, hp⟩ := Contributions.validUnsigned_first c rest h
      refine parseFloat_ne_nan_of_unsigned s false (c :: rest) ?_ h
      rw [hd]
      simp only [trimStart, hw, Bool.false_eq_true, if_false]
      unfold takeSign
      split
      · rename_i heq
        simp only [List.cons.injEq] at heq
        exact absurd heq.1 hm
      · rename_i heq
        simp only [List.cons.injEq] at heq
        exact absurd heq.1 hp
      · rfl

/-- The value of a number input is empty or parses to a Number other than
`NaN`. -/
theorem Contributions.numberInputValue_parses (text : String) :
    Contributions.numberInputValue text = "" ∨
      parseFloat (Contributions.numberInputValue text) ≠ .nan := by
  unfold Contributions.numberInputValue
  by_cases h : Contributions.isValidFloatingPointNumber text = true
  · right
    simp only [h, if_true]
    exact parseFloat_ne_nan_of_valid text h
  · left
    simp [h]

/-- Every state whose amount is the empty string (the initial state, and the
state after a contribution went through) or a valid floating-point number is a
state left by `onChange`. -/
theorem Contributions.onChange_reaches (s : Contributions.State)
    (h : s.contributionAmount = "" ∨
      Contributions.isValidFloatingPointNumber s.contributionAmount = true) :
    Contributions.onChange s s.contributionAmount = s := by
  cases s with
  | mk contributionAmount isLoading =>
    simp only [Contributions.onChange, Contributions.numberInputValue] at h ⊢
    rcases h with h | h
    · subst h
      rfl
    · simp [h]

/-- C21: in every state the amount field can reach (its value is what the
number input holds after the user left `text` in it: `text` when that is a
valid floating-point number, the empty string otherwise), `handleContribution`
proceeds only with a valid amount: when the amount string is empty or does not
parse to a Number greater than 0 it only shows "Please enter a valid
contribution amount", calls neither `encryptValue` nor `contribute` and leaves
the field as it is; otherwise it calls `encryptValue` once with the parsed
amount, passes the result as it is to `contribute` (which it does not call when
`encryptValue` rejects), clears the amount field if `contribute` resolves and
leaves it unchanged if `encryptValue` or `contribute` rejects. -/
theorem handleContribution_valid_amount (encryptValue : Method JSVal)
    (contribute : Method Unit) (s0 : Contributions.State) (text : String) :
    let s := Contributions.onChange s0 text
    let amount := parseFloat s.contributionAmount
    let r := Contributions.handleContribution encryptValue contribute s
    ((s.contributionAmount = "" ∨ (Num.ofInt 0).lt amount = false) →
      r.trace = [.toastError "Please enter a valid contribution amount"] ∧
      r.state.contributionAmount = s.contributionAmount) ∧
    ((s.contributionAmount ≠ "" ∧ (Num.ofInt 0).lt amount = true) →
      (∀ e, encryptValue [.num amount] = .error e →
        r.trace.filter Event.isAction = [.action "encryptValue" [.num amount]] ∧
        r.state.contributionAmount = s.contributionAmount) ∧
      (∀ encryptedAmount, encryptValue [.num amount] = .ok encryptedAmount →
        r.trace.filter Event.isAction
          = [.action "encryptValue" [.num amount], .action "contribute" [encryptedAmount]] ∧
        (∀ u, contribute [encryptedAmount] = .ok u → r.state.contributionAmount = "") ∧
        (∀ e, contribute [encryptedAmount] = .error e →
          r.state.contributionAmount = s.contributionAmount))) := by
  intro s amount r
  have hparse : s.contributionAmount = "" ∨ amount ≠ .nan :=
    Contributions.numberInputValue_parses text
  constructor
  · intro h
    have hguard : s.contributionAmount = "" ∨ amount.le (Num.ofInt 0) = true := by
      rcases h with h | h
      · exact Or.inl h
      · rcases hparse with hp | hp
        · exact Or.inl hp
        · right
          rw [Num.le_eq_not_lt hp (by simp [Num.ofInt]), h]
          rfl
    simp only [r, Contributions.handleContribution]
    rw [if_pos hguard]
    exact ⟨rfl, rfl⟩
  · rintro ⟨hne, hpos⟩
    have hle : amount.le (Num.ofInt 0) = false := Num.le_zero_of_zero_lt hpos
    have hguard : ¬ (s.contributionAmount = "" ∨ amount.le (Num.ofInt 0) = true) := by
      rintro (h | h)
      · exact hne h
      · rw [hle] at h
        exact Bool.false_ne_true h
    simp only [r, Contributions.handleContribution]
    rw [if_neg hguard]
    refine ⟨fun e he => ?_, fun encryptedAmount he => ?_⟩
    · simp only [amount] at he
      simp [he, List.filter, Event.isAction]
    · simp only [amount] at he
      simp only [he]
      refine ⟨?_, fun u hu => ?_, fun e hc => ?_⟩
      · cases hc : contribute [encryptedAmount] <;> simp [List.filter, Event.isAction, amount]
      · simp [hu]
      · simp [hc]

/-- Witness (C21): the user left "0.5" in the field, and `encryptValue` and
`contribute` resolve. -/
theorem handleContribution_valid_amount_witness :
    (Contributions.handleContribution (fun _ => .ok (.bytes [])) (fun _ => .ok ())
        (Contributions.onChange ⟨"", false⟩ "0.5")).trace.filter Event.isAction
      = [.action "encryptValue" [.num (.fin 1 1)], .action "contribute" [.bytes []]] ∧
    (Contributions.handleContribution (fun _ => .ok (.bytes [])) (fun _ => .ok ())
        (Contributions.onChange ⟨"", false⟩ "0.5")).state.contributionAmount = "" :=
  have h := ((handleContribution_valid_amount (fun _ => .ok (.bytes [])) (fun _ => .ok ())
    ⟨"", false⟩ "0.5").2 ⟨by decide, by decide⟩).2 (.bytes []) rfl
  ⟨h.1, h.2.1 () rfl⟩

/-- What the number input keeps of some texts: numbers as they are, the empty
string for a text that is not a valid floating-point number. -/
theorem Contributions.numberInputValue_evaluations :
    Contributions.numberInputValue "0.5" = "0.5" ∧
    Contributions.numberInputValue ".5" = ".5" ∧
    Contributions.numberInputValue "-1.5e3" = "-1.5e3" ∧
    Contributions.numberInputValue "1e+2" = "1e+2" ∧
    Contributions.numberInputValue "abc" = "" ∧
    Contributions.numberInputValue "5." = "" ∧
    Contributions.numberInputValue "+5" = "" ∧
    Contributions.numberInputValue " 5" = "" ∧
    Contributions.numberInputValue "1e" = "" ∧
    Contributions.numberInputValue "1.5x" = "" ∧
    Contributions.numberInputValue "-" = "" ∧
    Contributions.numberInputValue "Infinity" = "" ∧
    Contributions.numberInputValue "" = "" := by
  decide

/-- The handler on its own does not reject a string that parses to `NaN`: with
the amount "abc" it calls `encryptValue(NaN)`.  The number input never holds
such a string: what it keeps of the text "abc" is the empty string, for which
the handler shows the validation toast. -/
theorem Contributions.handleContribution_nan_string :
    parseFloat "abc" = .nan ∧
    (Contributions.handleContribution (fun _ => .ok (.bytes [])) (fun _ => .ok ())
        ⟨"abc", false⟩).trace
      = [.action "encryptValue" [.num .nan], .action "contribute" [.bytes []],
          .toastSuccess "Contribution made successfully!"] ∧
    (Contributions.handleContribution (fun _ => .ok (.bytes [])) (fun _ => .ok ())
        (Contributions.onChange ⟨"", false⟩ "abc")).trace
      = [.toastError "Please enter a valid contribution amount"] := by
  refine ⟨by decide, rfl, rfl⟩

/-- When `handleWithdrawal` calls `contract.withdraw` and the call or the wait
rejects with `e`, the handler ends in its `catch` block with `e`, having shown
no error toast before. -/
theorem Retirement.handleWithdrawal_caught (lib : Ethers) (s : Retirement.State)
    (c : Contract) (f : Method Tx) (args : List JSVal) (e : JSVal)
    (hc : s.contract = some c) (hf : c.withdraw = some f)
    (hcall : Event.call "withdraw" args ∈ (Retirement.handleWithdrawal lib s).trace)
    (hrej : f args = .error e ∨ ∃ tx, f args = .ok tx ∧ tx.wait = .error e) :
    ∃ s1 t, Retirement.handleWithdrawal lib s = Retirement.caught s1 t e ∧
      t.filter Event.isToastError = [] := by
  unfold Retirement.handleWithdrawal at hcall ⊢
  split at hcall
  · simp at hcall
  rename_i h1
  simp only [h1, if_false, hc, invoke, hf] at hcall ⊢
  cases hp : lib.parseEther "0.001" with
  | error e0 =>
    exfalso
    simp only [hp, Retirement.caught] at hcall
    split at hcall <;> simp at hcall
  | ok value =>
    simp only [hp] at hcall ⊢
    cases hr : f [.num (parseFloat s.withdrawAmount).floor, .obj [("value", value)]] with
    | error e1 =>
      simp only [hr] at hcall ⊢
      have hargs : args = [.num (parseFloat s.withdrawAmount).floor, .obj [("value", value)]] := by
        unfold Retirement.caught at hcall
        split at hcall <;> simp at hcall <;> exact hcall
      subst hargs
      have he : e1 = e := by simpa [hr] using hrej
      subst he
      exact ⟨_, _, rfl, by simp [List.filter, Event.isToastError]⟩
    | ok tx =>
      cases hw : tx.wait with
      | error e1 =>
        simp only [hr, hw] at hcall ⊢
        have hargs : args = [.num (parseFloat s.withdrawAmount).floor, .obj [("value", value)]] := by
          unfold Retirement.caught at hcall
          split at hcall <;> simp at hcall <;> exact hcall
        subst hargs
        have he : e1 = e := by simpa [hr, hw] using hrej
        subst he
        exact ⟨_, _, rfl, by simp [List.filter, Event.isToastError]⟩
      | ok v =>
        exfalso
        simp only [hr, hw] at hcall
        have hargs : args = [.num (parseFloat s.withdrawAmount).floor, .obj [("value", value)]] := by
          cases ho : c.once with
          | none =>
            simp only [ho, Retirement.caught] at hcall
            split at hcall <;> simp at hcall <;> exact hcall
          | some g =>
            cases hg : g [.str "WithdrawalMade"] with
            | error e2 =>
              simp only [ho, hg, Retirement.caught] at hcall
              split at hcall <;> simp at hcall <;> exact hcall
            | ok u =>
              simp only [ho, hg] at hcall
              simp at hcall
              exact hcall
        subst hargs
        simp [hr, hw] at hrej

/-- C22: when the withdrawal call (or the wait on its transaction) rejects
with an error object whose `message` is a string, the one error toast of
`handleWithdrawal` is chosen in this order: `code` equal to `ACTION_REJECTED`
gives "Transaction rejected by user"; else a message containing "Must be
retired" gives "You must be in retirement status to make withdrawals"; else a
message containing "insufficient funds" gives "Insufficient balance for
withdrawal"; else "Failed to process withdrawal. Please try again.". -/
theorem withdrawal_toast_priority (lib : Ethers) (s : Retirement.State) (c : Contract)
    (f : Method Tx) (args : List JSVal) (e code : JSVal) (m : String)
    (hc : s.contract = some c) (hf : c.withdraw = some f)
    (hcall : Event.call "withdraw" args ∈ (Retirement.handleWithdrawal lib s).trace)
    (hrej : f args = .error e ∨ ∃ tx, f args = .ok tx ∧ tx.wait = .error e)
    (hcode : e.getProp "code" = .ok code) (hm : e.getProp "message" = .ok (.str m)) :
    (Retirement.handleWithdrawal lib s).trace.filter Event.isToastError
      = [.toastError
          (if code.isStr "ACTION_REJECTED" then "Transaction rejected by user"
           else if includesChars "Must be retired".data m.data then
             "You must be in retirement status to make withdrawals"
           else if includesChars "insufficient funds".data m.data then
             "Insufficient balance for withdrawal"
           else "Failed to process withdrawal. Please try again.")] ∧
    (Retirement.handleWithdrawal lib s).threw = none := by
  obtain ⟨s1, t, hrun, ht⟩ := Retirement.handleWithdrawal_caught lib s c f args e hc hf hcall hrej
  have htoast : Retirement.errorToast e
      = .ok (if code.isStr "ACTION_REJECTED" then "Transaction rejected by user"
           else if includesChars "Must be retired".data m.data then
             "You must be in retirement status to make withdrawals"
           else if includesChars "insufficient funds".data m.data then
             "Insufficient balance for withdrawal"
           else "Failed to process withdrawal. Please try again.") := by
    unfold Retirement.errorToast
    simp only [hcode, hm, includes]
    by_cases h1 : code.isStr "ACTION_REJECTED" = true
    · simp [h1]
    · simp only [h1, if_false]
      cases h2 : includesChars "Must be retired".data m.data
      · cases h3 : includesChars "insufficient funds".data m.data <;> simp
      · simp
  rw [hrun, Retirement.caught_ok _ _ _ _ htoast]
  simp [List.filter_append, ht, List.filter, Event.isToastError]

/-- Witness (C22): `contract.withdraw` rejects with an error object whose code
is `INSUFFICIENT_FUNDS` and whose message contains "insufficient funds". -/
theorem withdrawal_toast_priority_witness :
    (Retirement.handleWithdrawal sampleEthers
        ⟨"5", false, some (rejectingWithdraw
          (.obj [("code", .str "INSUFFICIENT_FUNDS"),
                 ("message", .str "insufficient funds for gas")]))⟩).trace.filter
        Event.isToastError
      = [.toastError "Insufficient balance for withdrawal"] :=
  (withdrawal_toast_priority sampleEthers
    ⟨"5", false, some (rejectingWithdraw
      (.obj [("code", .str "INSUFFICIENT_FUNDS"),
             ("message", .str "insufficient funds for gas")]))⟩
    (rejectingWithdraw
      (.obj [("code", .str "INSUFFICIENT_FUNDS"), ("message", .str "insufficient funds for gas")]))
    (fun _ => .error
      (.obj [("code", .str "INSUFFICIENT_FUNDS"), ("message", .str "insufficient funds for gas")]))
    [.num (Num.ofInt 5), .obj [("value", .bigint 1000000000000000)]]
    (.obj [("code", .str "INSUFFICIENT_FUNDS"), ("message", .str "insufficient funds for gas")])
    (.str "INSUFFICIENT_FUNDS") "insufficient funds for gas"
    rfl rfl (List.Mem.tail _ (List.Mem.tail _ (List.Mem.head _))) (Or.inl rfl) rfl rfl).1

/-- For the null account and for every account whose retirement age is a
Number (any value, with any retired flag), exactly one of the three action
cards is rendered: "Make Withdrawal" when the account is retired, else
"Initiate Retirement" when `yearsToRetirement <= 0` (eligible), else
"Retirement Pending". -/
theorem Retirement.actionCards_of_number (x : Num)
    (lastContribution selectedInvestment : Numeric) (retired : Bool) :
    Retirement.actionCards none = .ok [.initiateRetirement] ∧
    ∃ years,
      Retirement.calculateYearsToRetirement
          (some ⟨.number x, lastContribution, retired, selectedInvestment⟩) = .ok years ∧
      Retirement.actionCards (some ⟨.number x, lastContribution, retired, selectedInvestment⟩)
        = .ok [if retired then .makeWithdrawal
               else if years.le (Num.ofInt 0) then .initiateRetirement
               else .retirementPending] := by
  refine ⟨rfl, ?_⟩
  by_cases hx : x.truthy = true
  · refine ⟨Num.max (Num.ofInt 0) (x.sub (Num.ofInt 30)), ?_, ?_⟩
    · simp [Retirement.calculateYearsToRetirement, hx]
    · simp only [Retirement.actionCards, Retirement.isEligibleForRetirement,
        Retirement.calculateYearsToRetirement, Retirement.isRetired, hx, if_true]
      cases retired <;>
        cases (Num.max (Num.ofInt 0) (x.sub (Num.ofInt 30))).le (Num.ofInt 0) <;> simp
  · refine ⟨Num.ofInt 0, ?_, ?_⟩
    · simp [Retirement.calculateYearsToRetirement, hx]
    · simp only [Retirement.actionCards, Retirement.isEligibleForRetirement,
        Retirement.calculateYearsToRetirement, Retirement.isRetired, hx]
      cases retired
      · simp
        decide
      · simp

/-- C23 (evaluation of the code): when the contract read delivers the tuple
`[65n, 0n, false, 0n]` (a `uint256` arrives as a BigInt), `PensionProvider`
stores the retirement age unconverted, and the render of the Retirement page
throws a `TypeError` in `calculateYearsToRetirement`: none of the three action
cards is rendered, and so it is for every account whose retirement age is a
BigInt other than `0n`.  With the conversion `Number()` that
`App.loadAccountInfo` applies to the same tuple, the page would render the one
card "Retirement Pending". -/
theorem actionCards_throws_on_bigint_age :
    PensionContext.syncPensionAccount (some ⟨.bigint 65, .bigint 0, false, .bigint 0⟩) none
      = some ⟨.bigint 65, .bigint 0, false, .bigint 0⟩ ∧
    Retirement.actionCards
        (PensionContext.syncPensionAccount (some ⟨.bigint 65, .bigint 0, false, .bigint 0⟩) none)
      = .error (JSVal.typeError "Cannot mix BigInt and other types, use explicit conversions") ∧
    (¬ ∃ card,
      Retirement.actionCards
          (PensionContext.syncPensionAccount
            (some ⟨.bigint 65, .bigint 0, false, .bigint 0⟩) none)
        = .ok [card]) ∧
    (∀ (n : Int) (info : AccountTuple) (previous : Option PensionAccount),
      info.v0 = .bigint n → n ≠ 0 →
      Retirement.actionCards (PensionContext.syncPensionAccount (some info) previous)
        = .error
          (JSVal.typeError "Cannot mix BigInt and other types, use explicit conversions")) ∧
    Retirement.actionCards
        (some ⟨.number (Numeric.toNumber (.bigint 65)), .bigint 0, false, .bigint 0⟩)
      = .ok [.retirementPending] := by
  refine ⟨rfl, rfl, ?_, ?_, rfl⟩
  · rintro ⟨card, h⟩
    exact absurd h (by
      show (Except.error
          (JSVal.typeError "Cannot mix BigInt and other types, use explicit conversions")
        : Except JSVal (List Retirement.Card)) ≠ .ok [card]
      simp)
  · intro n info previous hv0 hn
    simp [PensionContext.syncPensionAccount, Retirement.actionCards,
      Retirement.isEligibleForRetirement, Retirement.calculateYearsToRetirement, hv0, hn]

/-- For an account whose retirement age is a Number,
`calculateYearsToRetirement` returns `0` when the retirement age is falsy (`0`
or `NaN`), as it does for the null account, and `max(0, retirementAge - 30)`
otherwise; for a non-retired account whose retirement age is an integer Number
`n` in 55..75 the result is `n - 30`, which is at least 25,
`isEligibleForRetirement` is false, and the only action card rendered is
"Retirement Pending"; so it is for the age 60.5, with the result 30.5. -/
theorem Retirement.calculateYears_of_number (n : Int)
    (lastContribution selectedInvestment : Numeric) (h55 : 55 ≤ n) (h75 : n ≤ 75) :
    Retirement.calculateYearsToRetirement none = .ok (Num.ofInt 0) ∧
    (∀ (x : Num) (retired : Bool),
      Retirement.calculateYearsToRetirement
          (some ⟨.number x, lastContribution, retired, selectedInvestment⟩)
        = .ok (if x.truthy then Num.max (Num.ofInt 0) (x.sub (Num.ofInt 30))
               else Num.ofInt 0)) ∧
    Retirement.calculateYearsToRetirement
        (some ⟨.number (Num.ofInt n), lastContribution, false, selectedInvestment⟩)
      = .ok (Num.ofInt (n - 30)) ∧
    Num.max (Num.ofInt 0) ((Num.ofInt n).sub (Num.ofInt 30)) = Num.ofInt (n - 30) ∧
    25 ≤ n - 30 ∧
    Retirement.isEligibleForRetirement
        (some ⟨.number (Num.ofInt n), lastContribution, false, selectedInvestment⟩)
      = .ok false ∧
    Retirement.actionCards
        (some ⟨.number (Num.ofInt n), lastContribution, false, selectedInvestment⟩)
      = .ok [.retirementPending] ∧
    Retirement.calculateYearsToRetirement
        (some ⟨.number (.fin 121 1), .bigint 0, false, .bigint 0⟩) = .ok (.fin 61 1) ∧
    Retirement.actionCards (some ⟨.number (.fin 121 1), .bigint 0, false, .bigint 0⟩)
      = .ok [.retirementPending] := by
  have hmax : Num.max (Num.ofInt 0) ((Num.ofInt n).sub (Num.ofInt 30)) = Num.ofInt (n - 30) := by
    interval_cases n <;> decide
  have htruthy : (Num.ofInt n).truthy = true := by
    interval_cases n <;> decide
  have hle : (Num.ofInt (n - 30)).le (Num.ofInt 0) = false := by
    interval_cases n <;> decide
  refine ⟨rfl, fun x retired => ?_, ?_, hmax, by omega, ?_, ?_, rfl, rfl⟩
  · by_cases hx : x.truthy = true <;> simp [Retirement.calculateYearsToRetirement, hx]
  · simp [Retirement.calculateYearsToRetirement, htruthy, hmax]
  · simp [Retirement.isEligibleForRetirement, Retirement.calculateYearsToRetirement,
      Retirement.isRetired, htruthy, hmax, hle]
  · simp [Retirement.actionCards, Retirement.isEligibleForRetirement,
      Retirement.calculateYearsToRetirement, Retirement.isRetired, htruthy, hmax, hle]

/-- C24 (evaluation of the code): for a non-retired account whose retirement
age is the BigInt `65n`, in the range 55..75 and stored by `PensionProvider` as
the contract read delivered it, `calculateYearsToRetirement` does not return
`max(0, 65 - 30) = 35`: the subtraction `retirementAge - currentAge` raises a
`TypeError`, for every BigInt age in 55..75, and the computation of
`isEligibleForRetirement` throws with it.  With the conversion `Number()` that
`App.loadAccountInfo` applies to the same tuple, the result is 35 and
`isEligibleForRetirement` is false. -/
theorem calculateYears_throws_on_bigint_age :
    Retirement.calculateYearsToRetirement
        (PensionContext.syncPensionAccount (some ⟨.bigint 65, .bigint 0, false, .bigint 0⟩) none)
      = .error (JSVal.typeError "Cannot mix BigInt and other types, use explicit conversions") ∧
    Retirement.calculateYearsToRetirement
        (PensionContext.syncPensionAccount (some ⟨.bigint 65, .bigint 0, false, .bigint 0⟩) none)
      ≠ .ok (Num.max (Num.ofInt 0) ((Num.ofInt 65).sub (Num.ofInt 30))) ∧
    Retirement.isEligibleForRetirement
        (PensionContext.syncPensionAccount (some ⟨.bigint 65, .bigint 0, false, .bigint 0⟩) none)
      = .error (JSVal.typeError "Cannot mix BigInt and other types, use explicit conversions") ∧
    (∀ (n : Int) (info : AccountTuple) (previous : Option PensionAccount),
      info.v0 = .bigint n → 55 ≤ n → n ≤ 75 →
      Retirement.calculateYearsToRetirement
          (PensionContext.syncPensionAccount (some info) previous)
        = .error
          (JSVal.typeError "Cannot mix BigInt and other types, use explicit conversions")) ∧
    Retirement.calculateYearsToRetirement
        (some ⟨.number (Numeric.toNumber (.bigint 65)), .bigint 0, false, .bigint 0⟩)
      = .ok (Num.ofInt 35) ∧
    Retirement.isEligibleForRetirement
        (some ⟨.number (Numeric.toNumber (.bigint 65)), .bigint 0, false, .bigint 0⟩)
      = .ok false := by
  refine ⟨rfl, fun h => ?_, rfl, ?_, rfl, rfl⟩
  · exact absurd h (by
      show (Except.error
          (JSVal.typeError "Cannot mix BigInt and other types, use explicit conversions")
        : Except JSVal Num) ≠ .ok _
      simp)
  · intro n info previous hv0 h55 h75
    have hn : n ≠ 0 := by omega
    simp [PensionContext.syncPensionAccount, Retirement.calculateYearsToRetirement, hv0, hn]

end PrivatePension
